import Mathlib

/-!
Verification development for the epaper-image-convert pixel pipeline.

The definitions below are a shallow embedding of the JavaScript sources
`src/processor.js`, `src/palettes.js` and `src/presets.js`.  JavaScript
float64 arithmetic is idealised: exactly representable computations
(integer pixel bytes, rational error-diffusion weights, HSL arithmetic)
are modelled over `ℚ`/`ℕ`/`ℤ`; computations involving `Math.pow` with
fractional exponents or `Math.sqrt` (the CIE Lab conversions and deltaE)
are modelled over `ℝ` with `Real.rpow`/`Real.sqrt`.  Image buffers
(`Uint8ClampedArray` contents) are modelled as functions from the linear
pixel index to a byte triple; stores into the clamped array clamp to
[0, 255].
-/

/-- One stored pixel: (R, G, B) bytes of a `Uint8ClampedArray`. -/
abbrev Pix := ℕ × ℕ × ℕ

/-- Per-pixel floating error residual (one rational per channel). -/
abbrev ErrPix := ℚ × ℚ × ℚ

/-- A CIE Lab triple (L, a, b). -/
abbrev Lab3 := ℝ × ℝ × ℝ

/-- Store of an integer into a `Uint8ClampedArray` slot: clamp to [0, 255]. -/
def byteOfInt (v : ℤ) : ℕ := (max 0 (min 255 v)).toNat

/-- Store of a natural number into a `Uint8ClampedArray` slot: clamp above at 255. -/
def byteOfNat (v : ℕ) : ℕ := min v 255

/-- One palette of the pair: the six named ink colors (palettes.js format). -/
structure SinglePal where
  black : Pix
  white : Pix
  yellow : Pix
  red : Pix
  blue : Pix
  green : Pix

/-- A palette pair: theoretical (driver values) and perceived (measured). -/
structure PalettePair where
  theoretical : SinglePal
  perceived : SinglePal

/-- processor.js `paletteToArray`: 7-slot array
[black, white, yellow, red, reserved, blue, green]; slot 4 is reserved. -/
def paletteToArray (p : SinglePal) : List Pix :=
  [p.black, p.white, p.yellow, p.red, (0, 0, 0), p.blue, p.green]

/-- The SPECTRA6 palette pair from palettes.js. -/
def SPECTRA6 : PalettePair :=
  { theoretical :=
      { black := (0, 0, 0), white := (255, 255, 255), yellow := (255, 255, 0)
        red := (255, 0, 0), blue := (0, 0, 255), green := (0, 255, 0) }
    perceived :=
      { black := (2, 2, 2), white := (190, 200, 200), yellow := (205, 202, 0)
        red := (135, 19, 0), blue := (5, 64, 158), green := (39, 102, 60) } }

/-! ## Color space conversion (processor.js, `rgbToXyz` .. `deltaE`) -/

noncomputable def rgbToXyz (r g b : ℝ) : ℝ × ℝ × ℝ :=
  let r1 := r / 255
  let g1 := g / 255
  let b1 := b / 255
  let r2 := if r1 > 0.04045 then ((r1 + 0.055) / 1.055) ^ (2.4 : ℝ) else r1 / 12.92
  let g2 := if g1 > 0.04045 then ((g1 + 0.055) / 1.055) ^ (2.4 : ℝ) else g1 / 12.92
  let b2 := if b1 > 0.04045 then ((b1 + 0.055) / 1.055) ^ (2.4 : ℝ) else b1 / 12.92
  let x := r2 * 0.4124564 + g2 * 0.3575761 + b2 * 0.1804375
  let y := r2 * 0.2126729 + g2 * 0.7151522 + b2 * 0.072175
  let z := r2 * 0.0193339 + g2 * 0.119192 + b2 * 0.9503041
  (x * 100, y * 100, z * 100)

noncomputable def xyzToLab (x y z : ℝ) : ℝ × ℝ × ℝ :=
  let x1 := x / 95.047
  let y1 := y / 100.0
  let z1 := z / 108.883
  let x2 := if x1 > 0.008856 then x1 ^ ((1 : ℝ) / 3) else 7.787 * x1 + 16 / 116
  let y2 := if y1 > 0.008856 then y1 ^ ((1 : ℝ) / 3) else 7.787 * y1 + 16 / 116
  let z2 := if z1 > 0.008856 then z1 ^ ((1 : ℝ) / 3) else 7.787 * z1 + 16 / 116
  (116 * y2 - 16, 500 * (x2 - y2), 200 * (y2 - z2))

noncomputable def rgbToLab (r g b : ℝ) : Lab3 :=
  let xyz := rgbToXyz r g b
  xyzToLab xyz.1 xyz.2.1 xyz.2.2

noncomputable def labToXyz (L a b : ℝ) : ℝ × ℝ × ℝ :=
  let y := (L + 16) / 116
  let x := a / 500 + y
  let z := y - b / 200
  let x2 := if x > 0.206897 then x ^ (3 : ℕ) else (x - 16 / 116) / 7.787
  let y2 := if y > 0.206897 then y ^ (3 : ℕ) else (y - 16 / 116) / 7.787
  let z2 := if z > 0.206897 then z ^ (3 : ℕ) else (z - 16 / 116) / 7.787
  (x2 * 95.047, y2 * 100.0, z2 * 108.883)

noncomputable def xyzToRgb (x y z : ℝ) : ℤ × ℤ × ℤ :=
  let x1 := x / 100
  let y1 := y / 100
  let z1 := z / 100
  let r := x1 * 3.2404542 + y1 * (-1.5371385) + z1 * (-0.4985314)
  let g := x1 * (-0.969266) + y1 * 1.8760108 + z1 * 0.041556
  let b := x1 * 0.0556434 + y1 * (-0.2040259) + z1 * 1.0572252
  let r2 := if r > 0.0031308 then 1.055 * r ^ ((1 : ℝ) / 2.4) - 0.055 else 12.92 * r
  let g2 := if g > 0.0031308 then 1.055 * g ^ ((1 : ℝ) / 2.4) - 0.055 else 12.92 * g
  let b2 := if b > 0.0031308 then 1.055 * b ^ ((1 : ℝ) / 2.4) - 0.055 else 12.92 * b
  (max 0 (min 255 (round (r2 * 255))),
   max 0 (min 255 (round (g2 * 255))),
   max 0 (min 255 (round (b2 * 255))))

noncomputable def labToRgb (L a b : ℝ) : ℤ × ℤ × ℤ :=
  let xyz := labToXyz L a b
  xyzToRgb xyz.1 xyz.2.1 xyz.2.2

noncomputable def deltaE (lab1 lab2 : Lab3) : ℝ :=
  Real.sqrt ((lab1.1 - lab2.1) * (lab1.1 - lab2.1) +
    (lab1.2.1 - lab2.2.1) * (lab1.2.1 - lab2.2.1) +
    (lab1.2.2 - lab2.2.2) * (lab1.2.2 - lab2.2.2))

/-! ## Image adjustment (processor.js, `applyExposure` .. `applyScurveTonemap`) -/

/-- processor.js `applyExposure`: per channel
`data[i] = Math.min(255, Math.round(data[i] * exposure))`;
returns immediately when the multiplier is exactly 1.0. -/
def applyExposure (data : ℕ → Pix) (exposure : ℚ) : ℕ → Pix :=
  if exposure = 1 then data
  else fun i =>
    (byteOfInt (min 255 (round (((data i).1 : ℚ) * exposure))),
     byteOfInt (min 255 (round (((data i).2.1 : ℚ) * exposure))),
     byteOfInt (min 255 (round (((data i).2.2 : ℚ) * exposure))))

/-- processor.js `applyContrast`: per channel
`data[i] = Math.max(0, Math.min(255, Math.round((data[i] - 128) * factor + 128)))`;
returns immediately when the factor is exactly 1.0. -/
def applyContrast (data : ℕ → Pix) (contrast : ℚ) : ℕ → Pix :=
  if contrast = 1 then data
  else fun i =>
    (byteOfInt (max 0 (min 255 (round ((((data i).1 : ℚ) - 128) * contrast + 128)))),
     byteOfInt (max 0 (min 255 (round ((((data i).2.1 : ℚ) - 128) * contrast + 128)))),
     byteOfInt (max 0 (min 255 (round ((((data i).2.2 : ℚ) - 128) * contrast + 128)))))

/-- One pixel of processor.js `applySaturation`: RGB → HSL, scale S, HSL → RGB.
Pure rational arithmetic; `(h * 6) % 2` is JavaScript float modulo,
which for nonnegative operands is `t - 2 * ⌊t / 2⌋`. -/
def satPixel (saturation : ℚ) (p : Pix) : Pix :=
  let r : ℚ := p.1
  let g : ℚ := p.2.1
  let b : ℚ := p.2.2
  let mx := max (max r g) b / 255
  let mn := min (min r g) b / 255
  let l := (mx + mn) / 2
  if mx = mn then p
  else
    let d := mx - mn
    let s := if l > 1 / 2 then d / (2 - mx - mn) else d / (mx + mn)
    let hVal :=
      if mx = r / 255 then ((g / 255 - b / 255) / d + (if p.2.1 < p.2.2 then 6 else 0)) / 6
      else if mx = g / 255 then ((b / 255 - r / 255) / d + 2) / 6
      else ((r / 255 - g / 255) / d + 4) / 6
    let newS := max 0 (min 1 (s * saturation))
    let c := (1 - |2 * l - 1|) * newS
    let xv := c * (1 - |(hVal * 6 - 2 * ((⌊hVal * 6 / 2⌋ : ℤ) : ℚ)) - 1|)
    let m := l - c / 2
    let sector := ⌊hVal * 6⌋
    let rgb1 : ℚ × ℚ × ℚ :=
      if sector = 0 then (c, xv, 0)
      else if sector = 1 then (xv, c, 0)
      else if sector = 2 then (0, c, xv)
      else if sector = 3 then (0, xv, c)
      else if sector = 4 then (xv, 0, c)
      else (c, 0, xv)
    (byteOfInt (round ((rgb1.1 + m) * 255)),
     byteOfInt (round ((rgb1.2.1 + m) * 255)),
     byteOfInt (round ((rgb1.2.2 + m) * 255)))

/-- processor.js `applySaturation`; returns immediately when the multiplier is 1.0,
and `satPixel` leaves true grays (max = min) unchanged. -/
def applySaturation (data : ℕ → Pix) (saturation : ℚ) : ℕ → Pix :=
  if saturation = 1 then data else fun i => satPixel saturation (data i)

/-- One channel of processor.js `applyScurveTonemap` (fractional `Math.pow`, over ℝ). -/
noncomputable def scurveChannel (strength shadowBoost highlightCompress midpoint : ℚ) (v : ℕ) : ℕ :=
  let normalized : ℝ := (v : ℝ) / 255
  let result : ℝ :=
    if normalized ≤ (midpoint : ℝ) then
      (normalized / (midpoint : ℝ)) ^ ((1 : ℝ) - (strength : ℝ) * (shadowBoost : ℝ)) * (midpoint : ℝ)
    else
      (midpoint : ℝ) +
        ((normalized - (midpoint : ℝ)) / (1 - (midpoint : ℝ))) ^
            ((1 : ℝ) + (strength : ℝ) * (highlightCompress : ℝ)) *
          (1 - (midpoint : ℝ))
  byteOfInt (round (max 0 (min 1 result) * 255))

/-- processor.js `applyScurveTonemap`; returns immediately when strength is 0. -/
noncomputable def applyScurveTonemap (data : ℕ → Pix)
    (strength shadowBoost highlightCompress midpoint : ℚ) : ℕ → Pix :=
  if strength = 0 then data
  else fun i =>
    (scurveChannel strength shadowBoost highlightCompress midpoint (data i).1,
     scurveChannel strength shadowBoost highlightCompress midpoint (data i).2.1,
     scurveChannel strength shadowBoost highlightCompress midpoint (data i).2.2)

/-! ## Processing parameters (presets.js) -/

structure ProcessingParams where
  exposure : ℚ
  saturation : ℚ
  toneMode : String
  contrast : ℚ
  strength : ℚ
  shadowBoost : ℚ
  highlightCompress : ℚ
  midpoint : ℚ
  colorMethod : String
  ditherAlgorithm : String
  compressDynamicRange : Bool

/-- presets.js `getDefaultParams` (the CDR preset values). -/
def getDefaultParams : ProcessingParams :=
  { exposure := 1, saturation := 1, toneMode := "contrast", contrast := 1
    strength := 0.9, shadowBoost := 0, highlightCompress := 1.5, midpoint := 0.5
    colorMethod := "rgb", ditherAlgorithm := "floyd-steinberg"
    compressDynamicRange := true }

/-! ## Preprocessing (processor.js `preprocessImage`) -/

/-- Step 4 of `preprocessImage`: compress dynamic range into the perceived
palette's L* band.  `blackL`/`whiteL` are the L* of the perceived black/white. -/
noncomputable def compressDR (data : ℕ → Pix) (pal : SinglePal) : ℕ → Pix :=
  let blackL := (rgbToLab (pal.black.1 : ℝ) (pal.black.2.1 : ℝ) (pal.black.2.2 : ℝ)).1
  let whiteL := (rgbToLab (pal.white.1 : ℝ) (pal.white.2.1 : ℝ) (pal.white.2.2 : ℝ)).1
  fun i =>
    let p := data i
    let lab := rgbToLab (p.1 : ℝ) (p.2.1 : ℝ) (p.2.2 : ℝ)
    let compressedL := blackL + lab.1 / 100 * (whiteL - blackL)
    let nrgb := labToRgb compressedL lab.2.1 lab.2.2
    (byteOfInt nrgb.1, byteOfInt nrgb.2.1, byteOfInt nrgb.2.2)

/-- processor.js `preprocessImage`: exposure, saturation, tone mapping, then
optional dynamic-range compression.  The guards mirror the source:
`params.exposure && params.exposure !== 1.0`, `params.saturation !== 1.0`,
`params.toneMode || "contrast"`, `params.contrast && params.contrast !== 1.0`,
`params.compressDynamicRange && perceivedPalette`. -/
noncomputable def preprocessImage (data : ℕ → Pix) (params : ProcessingParams)
    (perceivedPalette : Option SinglePal) : ℕ → Pix :=
  let toneMode := if params.toneMode = "" then "contrast" else params.toneMode
  let d1 := if params.exposure ≠ 0 ∧ params.exposure ≠ 1 then
      applyExposure data params.exposure else data
  let d2 := if params.saturation ≠ 1 then applySaturation d1 params.saturation else d1
  let d3 :=
    if toneMode = "contrast" then
      if params.contrast ≠ 0 ∧ params.contrast ≠ 1 then applyContrast d2 params.contrast else d2
    else
      applyScurveTonemap d2 params.strength params.shadowBoost params.highlightCompress
        params.midpoint
  match perceivedPalette with
  | some pal => if params.compressDynamicRange then compressDR d3 pal else d3
  | none => d3

/-! ## Color matching (processor.js `findClosestColorRGB` / `findClosestColorLAB`) -/

/-- One iteration of the closest-color loop: skip the reserved slot 4, keep the
slot with the strictly smallest distance seen so far.  The accumulator is
(`minDist` as an `Option` standing for the `Infinity` start, `closest`). -/
def fcStep {A : Type} [LinearOrder A] (dist : ℕ → A) (acc : Option A × ℕ) (i : ℕ) :
    Option A × ℕ :=
  if i = 4 then acc
  else
    match acc.1 with
    | none => (some (dist i), i)
    | some m => if dist i < m then (some (dist i), i) else acc

/-- The closest-color loop state after scanning slots `0 .. n-1`,
starting from `minDist = Infinity`, `closest = 1`. -/
def fclAcc {A : Type} [LinearOrder A] (dist : ℕ → A) (n : ℕ) : Option A × ℕ :=
  (List.range n).foldl (fcStep dist) (none, 1)

/-- Result of the closest-color loop over slots `0 .. n-1`. -/
def findClosestLoop {A : Type} [LinearOrder A] (dist : ℕ → A) (n : ℕ) : ℕ :=
  (fclAcc dist n).2

/-- Squared Euclidean RGB distance from the working color to palette slot `i`. -/
def rgbSlotDist (r g b : ℚ) (paletteArray : List Pix) (i : ℕ) : ℚ :=
  let p := paletteArray.getD i (0, 0, 0)
  (r - p.1) * (r - p.1) + (g - p.2.1) * (g - p.2.1) + (b - p.2.2) * (b - p.2.2)

/-- processor.js `findClosestColorRGB`. -/
def findClosestColorRGB (r g b : ℚ) (paletteArray : List Pix) : ℕ :=
  findClosestLoop (rgbSlotDist r g b paletteArray) paletteArray.length

/-- deltaE distance from the working color's Lab value to precomputed slot Lab `i`. -/
noncomputable def labSlotDist (r g b : ℚ) (paletteLab : List Lab3) (i : ℕ) : ℝ :=
  deltaE (rgbToLab (r : ℝ) (g : ℝ) (b : ℝ)) (paletteLab.getD i (0, 0, 0))

/-- processor.js `findClosestColorLAB` (loop bound is the palette array length,
distances use the precomputed Lab table, as in the source). -/
noncomputable def findClosestColorLAB (r g b : ℚ) (paletteArray : List Pix)
    (paletteLab : List Lab3) : ℕ :=
  findClosestLoop (labSlotDist r g b paletteLab) paletteArray.length

/-- processor.js `findClosestColor` method dispatch. -/
noncomputable def findClosestColor (r g b : ℚ) (method : String)
    (paletteArray : List Pix) (paletteLab : List Lab3) : ℕ :=
  if method = "lab" then findClosestColorLAB r g b paletteArray paletteLab
  else findClosestColorRGB r g b paletteArray

/-! ## Dithering (processor.js `DIFFUSION_MATRICES`, `applyErrorDiffusionDither`) -/

def fsMatrix : List (ℤ × ℤ × ℚ) :=
  [(1, 0, 7 / 16), (-1, 1, 3 / 16), (0, 1, 5 / 16), (1, 1, 1 / 16)]

def stuckiMatrix : List (ℤ × ℤ × ℚ) :=
  [(1, 0, 8 / 42), (2, 0, 4 / 42), (-2, 1, 2 / 42), (-1, 1, 4 / 42), (0, 1, 8 / 42),
   (1, 1, 4 / 42), (2, 1, 2 / 42), (-2, 2, 1 / 42), (-1, 2, 2 / 42), (0, 2, 4 / 42),
   (1, 2, 2 / 42), (2, 2, 1 / 42)]

def burkesMatrix : List (ℤ × ℤ × ℚ) :=
  [(1, 0, 8 / 32), (2, 0, 4 / 32), (-2, 1, 2 / 32), (-1, 1, 4 / 32), (0, 1, 8 / 32),
   (1, 1, 4 / 32), (2, 1, 2 / 32)]

def sierraMatrix : List (ℤ × ℤ × ℚ) :=
  [(1, 0, 5 / 32), (2, 0, 3 / 32), (-2, 1, 2 / 32), (-1, 1, 4 / 32), (0, 1, 5 / 32),
   (1, 1, 4 / 32), (2, 1, 2 / 32), (-1, 2, 2 / 32), (0, 2, 3 / 32), (1, 2, 2 / 32)]

/-- Lookup `DIFFUSION_MATRICES[algorithm] || DIFFUSION_MATRICES["floyd-steinberg"]`. -/
def diffusionMatrix (algorithm : String) : List (ℤ × ℤ × ℚ) :=
  if algorithm = "floyd-steinberg" then fsMatrix
  else if algorithm = "stucki" then stuckiMatrix
  else if algorithm = "burkes" then burkesMatrix
  else if algorithm = "sierra" then sierraMatrix
  else fsMatrix

/-- JS `Math.max(0, Math.min(255, v))` for the working color. -/
def clampWork (v : ℚ) : ℚ := max 0 (min 255 v)

/-- Store of a palette entry into the pixel buffer (`Uint8ClampedArray` store). -/
def storePix (p : Pix) : Pix := (byteOfNat p.1, byteOfNat p.2.1, byteOfNat p.2.2)

/-- Mutable state of the dithering pass: the pixel buffer and the error buffer
(indexed by linear pixel position). -/
structure DitherState where
  data : ℕ → Pix
  errors : ℕ → ErrPix

/-- Body of the dithering loop at pixel (x, y): form the working color, match it
against the dither palette, write the output palette's entry, and accumulate the
quantization error (working − dither entry) into in-bounds neighbors. -/
noncomputable def ditherStep (w h : ℕ) (method : String) (opal dpal : List Pix)
    (mat : List (ℤ × ℤ × ℚ)) (labs : List Lab3) (s : DitherState) (x y : ℕ) :
    DitherState :=
  let idx := y * w + x
  let oldR := clampWork (((s.data idx).1 : ℚ) + (s.errors idx).1)
  let oldG := clampWork (((s.data idx).2.1 : ℚ) + (s.errors idx).2.1)
  let oldB := clampWork (((s.data idx).2.2 : ℚ) + (s.errors idx).2.2)
  let colorIdx := findClosestColor oldR oldG oldB method dpal labs
  let np := opal.getD colorIdx (0, 0, 0)
  let dp := dpal.getD colorIdx (0, 0, 0)
  let errR := oldR - (dp.1 : ℚ)
  let errG := oldG - (dp.2.1 : ℚ)
  let errB := oldB - (dp.2.2 : ℚ)
  { data := Function.update s.data idx (storePix np)
    errors := mat.foldl (fun es e =>
      let nx : ℤ := (x : ℤ) + e.1
      let ny : ℤ := (y : ℤ) + e.2.1
      if 0 ≤ nx ∧ nx < (w : ℤ) ∧ 0 ≤ ny ∧ ny < (h : ℤ) then
        let nIdx := (ny * w + nx).toNat
        Function.update es nIdx
          ((es nIdx).1 + errR * e.2.2, (es nIdx).2.1 + errG * e.2.2,
           (es nIdx).2.2 + errB * e.2.2)
      else es) s.errors }

/-- processor.js `applyErrorDiffusionDither`: single raster pass, error buffer
initialized to zero, Lab table precomputed only for the "lab" method. -/
noncomputable def applyErrorDiffusionDither (w h : ℕ) (data0 : ℕ → Pix)
    (method : String) (opal dpal : List Pix) (algorithm : String) : ℕ → Pix :=
  let mat := diffusionMatrix algorithm
  let labs := if method = "lab" then
      dpal.map (fun p => rgbToLab (p.1 : ℝ) (p.2.1 : ℝ) (p.2.2 : ℝ)) else []
  ((List.range h).foldl
      (fun s y => (List.range w).foldl (fun s x => ditherStep w h method opal dpal mat labs s x y) s)
      { data := data0, errors := fun _ => (0, 0, 0) }).data

/-! ## Pipeline (processor.js `processImage`) -/

/-- The pixel-processing portion of `processImage` after resizing: preprocess
with the perceived palette as reference, then (unless skipped) dither with the
perceived palette as dither palette and the theoretical palette as output
palette (or the perceived one when `usePerceivedOutput`). -/
noncomputable def processImagePixelStage (data : ℕ → Pix) (params : ProcessingParams)
    (palette : PalettePair) (skipDithering usePerceivedOutput : Bool) (w h : ℕ) :
    ℕ → Pix :=
  let d1 := preprocessImage data params (some palette.perceived)
  if skipDithering then d1
  else
    let outputPalette := if usePerceivedOutput then palette.perceived else palette.theoretical
    applyErrorDiffusionDither w h d1
      (if params.colorMethod = "" then "rgb" else params.colorMethod)
      (paletteToArray outputPalette) (paletteToArray palette.perceived)
      (if params.ditherAlgorithm = "" then "floyd-steinberg" else params.ditherAlgorithm)

/-- Canvas dimension flow of `processImage` (processor.js lines 1236-1261 of the
concatenated source): portrait sources rotate 90° clockwise unless
`skipRotation`; the target is the display size, swapped for portrait sources
kept unrotated on a landscape display; a cover-resize runs when the current
size differs from the target. -/
def processImageCanvasDims (srcW srcH dW dH : ℕ) (skipRotation : Bool) : ℕ × ℕ :=
  let isPortrait := srcH > srcW
  let c := if isPortrait ∧ skipRotation = false then (srcH, srcW) else (srcW, srcH)
  let final := if isPortrait ∧ skipRotation = true ∧ dW > dH then (dH, dW) else (dW, dH)
  if c.1 ≠ final.1 ∨ c.2 ≠ final.2 then final else c

/-! ## Bitmap encoder (processor.js `createBMP`) -/

/-- Concatenation of the images of `f` in order (explicit recursion for
index/length lemmas below). -/
def listConcatMap {A B : Type} (f : A → List B) : List A → List B
  | [] => []
  | a :: t => f a ++ listConcatMap f t

/-- Bytes of `Buffer.writeUInt16LE v`. -/
def u16le (v : ℕ) : List ℕ := [v % 256, v / 256 % 256]

/-- Bytes of `Buffer.writeUInt32LE v` (also `writeInt32LE` for nonnegative `v`). -/
def u32le (v : ℕ) : List ℕ := [v % 256, v / 256 % 256, v / 65536 % 256, v / 16777216 % 256]

/-- Row stride `Math.ceil(width * 3 / 4) * 4`: BMP rows padded to a multiple of 4 bytes. -/
def bmpRowSize (w : ℕ) : ℕ := (w * 3 + 3) / 4 * 4

/-- The 54-byte BMP header written by `createBMP` (file header + BITMAPINFOHEADER). -/
def bmpHeader (w h : ℕ) : List ℕ :=
  [66, 77] ++ u32le (54 + bmpRowSize w * h) ++ u32le 0 ++ u32le 54 ++ u32le 40 ++
  u32le w ++ u32le h ++ u16le 1 ++ u16le 24 ++ u32le 0 ++ u32le (bmpRowSize w * h) ++
  u32le 2835 ++ u32le 2835 ++ u32le 0 ++ u32le 0

/-- One pixel row of the BMP body: `width` pixels as B, G, R bytes, then zero
padding up to the padded row size. -/
def bmpRow (w : ℕ) (data : ℕ → Pix) (y : ℕ) : List ℕ :=
  listConcatMap
      (fun x => [(data (y * w + x)).2.2, (data (y * w + x)).2.1, (data (y * w + x)).1])
      (List.range w) ++
    List.replicate (bmpRowSize w - w * 3) 0

/-- processor.js `createBMP`: header then pixel rows written bottom row first. -/
def createBMP (w h : ℕ) (data : ℕ → Pix) : List ℕ :=
  bmpHeader w h ++ listConcatMap (bmpRow w data) (List.range h).reverse

/-- Little-endian 32-bit read from the byte list. -/
def readU32 (l : List ℕ) (o : ℕ) : ℕ :=
  l.getD o 0 + 256 * l.getD (o + 1) 0 + 65536 * l.getD (o + 2) 0 +
    16777216 * l.getD (o + 3) 0

/-- Little-endian 16-bit read from the byte list. -/
def readU16 (l : List ℕ) (o : ℕ) : ℕ := l.getD o 0 + 256 * l.getD (o + 1) 0

/-! ## Palette validation (palettes.js `validateSinglePalette` / `validatePalette`)

JavaScript values reaching the validator are modelled by `JVal`; numbers carry
an explicit NaN case (`typeof NaN === "number"`, and NaN compares false under
`<` and `>`).  Property access on a non-object yields `undef`. -/

inductive JSNum where
  | nan : JSNum
  | fin : ℚ → JSNum

inductive JVal where
  | undef : JVal
  | null : JVal
  | bool : Bool → JVal
  | num : JSNum → JVal
  | str : String → JVal
  | obj : List (String × JVal) → JVal

/-- JS property lookup; absent keys and non-objects give `undef`. -/
def getField : JVal → String → JVal
  | JVal.obj fields, k => ((fields.find? (fun f => f.1 = k)).map (fun f => f.2)).getD JVal.undef
  | _, _ => JVal.undef

/-- JS truthiness. -/
def truthy : JVal → Bool
  | JVal.undef => false
  | JVal.null => false
  | JVal.bool b => b
  | JVal.num JSNum.nan => false
  | JVal.num (JSNum.fin q) => q != 0
  | JVal.str s => s != ""
  | JVal.obj _ => true

/-- JS `typeof v === "number"`. -/
def typeofIsNumber : JVal → Bool
  | JVal.num _ => true
  | _ => false

/-- JS `typeof v === "object"` (true for objects and for `null`). -/
def typeofIsObject : JVal → Bool
  | JVal.obj _ => true
  | JVal.null => true
  | _ => false

/-- JS `v < q` for the validator's range check (false on NaN and non-numbers). -/
def numLtB (v : JVal) (q : ℚ) : Bool :=
  match v with
  | JVal.num (JSNum.fin x) => decide (x < q)
  | _ => false

/-- JS `v > q` for the validator's range check (false on NaN and non-numbers). -/
def numGtB (v : JVal) (q : ℚ) : Bool :=
  match v with
  | JVal.num (JSNum.fin x) => decide (x > q)
  | _ => false

/-- Is the value the number NaN. -/
def isNanNum : JVal → Bool
  | JVal.num JSNum.nan => true
  | _ => false

/-- The loop body of `validateSinglePalette` for one required color. -/
def checkColor (palette : JVal) (name color : String) : Except String Unit :=
  if truthy (getField palette color) = false then
    Except.error ("Missing required color in " ++ name ++ " palette: " ++ color)
  else
    let e := getField palette color
    let r := getField e "r"
    let g := getField e "g"
    let b := getField e "b"
    if (!typeofIsNumber r || !typeofIsNumber g || !typeofIsNumber b) = true then
      Except.error ("Invalid RGB values for " ++ name ++ "." ++ color)
    else if (numLtB r 0 || numGtB r 255 || numLtB g 0 || numGtB g 255 ||
        numLtB b 0 || numGtB b 255) = true then
      Except.error ("RGB values must be 0-255 for " ++ name ++ "." ++ color)
    else Except.ok ()

/-- The `for (const color of requiredColors)` loop: stop at the first error. -/
def checkColors (palette : JVal) (name : String) : List String → Except String Unit
  | [] => Except.ok ()
  | c :: rest =>
    match checkColor palette name c with
    | Except.error e => Except.error e
    | Except.ok _ => checkColors palette name rest

def requiredColors : List String := ["black", "white", "yellow", "red", "blue", "green"]

/-- palettes.js `validateSinglePalette`. -/
def validateSinglePalette (palette : JVal) (name : String) : Except String Unit :=
  if (!truthy palette || !typeofIsObject palette) = true then
    Except.error (name ++ " palette must be an object")
  else checkColors palette name requiredColors

/-- palettes.js `validatePalette`. -/
def validatePalette (palettePair : JVal) : Except String Bool :=
  if (!truthy palettePair || !typeofIsObject palettePair) = true then
    Except.error "Palette must be an object"
  else if truthy (getField palettePair "theoretical") = false then
    Except.error "Palette must have a theoretical property"
  else if truthy (getField palettePair "perceived") = false then
    Except.error "Palette must have a perceived property"
  else
    match validateSinglePalette (getField palettePair "theoretical") "theoretical" with
    | Except.error e => Except.error e
    | Except.ok _ =>
      match validateSinglePalette (getField palettePair "perceived") "perceived" with
      | Except.error e => Except.error e
      | Except.ok _ => Except.ok true

/-! Claim-side validity predicate (decidable, from the spec's words): every one
of the six color roles of both palettes carries numeric r, g, b channels whose
values lie in [0, 255]. -/

/-- A channel value is a (finite) number in [0, 255]. -/
def channelOKb : JVal → Bool
  | JVal.num (JSNum.fin q) => decide (0 ≤ q) && decide (q ≤ 255)
  | _ => false

/-- A color role has valid r, g, b channels. -/
def roleOKb (pal : JVal) (role : String) : Bool :=
  channelOKb (getField (getField pal role) "r") &&
  channelOKb (getField (getField pal role) "g") &&
  channelOKb (getField (getField pal role) "b")

/-- A single palette has all six roles valid. -/
def palOKb (pal : JVal) : Bool := requiredColors.all (roleOKb pal)

/-- The claim's validity of a palette pair. -/
def claimValidPairB (pp : JVal) : Bool :=
  palOKb (getField pp "theoretical") && palOKb (getField pp "perceived")

/-- No channel position of the palette pair holds the number NaN (true of
anything produced by `JSON.parse`, which cannot create NaN). -/
def nanFreeChannelsB (pp : JVal) : Bool :=
  (["theoretical", "perceived"] : List String).all (fun pk =>
    requiredColors.all (fun ro =>
      (["r", "g", "b"] : List String).all (fun ch =>
        !isNanNum (getField (getField (getField pp pk) ro) ch))))

/-- Build the `JVal` of one rgb channel object. -/
def rgbJV (r g b : JSNum) : JVal :=
  JVal.obj [("r", JVal.num r), ("g", JVal.num g), ("b", JVal.num b)]

/-- Build a palette `JVal` with the six roles. -/
def palJV (bk wh ye re bl gr : JVal) : JVal :=
  JVal.obj [("black", bk), ("white", wh), ("yellow", ye), ("red", re),
            ("blue", bl), ("green", gr)]

/-- The SPECTRA6 palette pair as a parsed JSON value. -/
def spectraJV : JVal :=
  JVal.obj
    [("theoretical",
      palJV (rgbJV (JSNum.fin 0) (JSNum.fin 0) (JSNum.fin 0))
        (rgbJV (JSNum.fin 255) (JSNum.fin 255) (JSNum.fin 255))
        (rgbJV (JSNum.fin 255) (JSNum.fin 255) (JSNum.fin 0))
        (rgbJV (JSNum.fin 255) (JSNum.fin 0) (JSNum.fin 0))
        (rgbJV (JSNum.fin 0) (JSNum.fin 0) (JSNum.fin 255))
        (rgbJV (JSNum.fin 0) (JSNum.fin 255) (JSNum.fin 0))),
     ("perceived",
      palJV (rgbJV (JSNum.fin 2) (JSNum.fin 2) (JSNum.fin 2))
        (rgbJV (JSNum.fin 190) (JSNum.fin 200) (JSNum.fin 200))
        (rgbJV (JSNum.fin 205) (JSNum.fin 202) (JSNum.fin 0))
        (rgbJV (JSNum.fin 135) (JSNum.fin 19) (JSNum.fin 0))
        (rgbJV (JSNum.fin 5) (JSNum.fin 64) (JSNum.fin 158))
        (rgbJV (JSNum.fin 39) (JSNum.fin 102) (JSNum.fin 60)))]

/-- The SPECTRA6 pair with `theoretical.black.r` replaced by NaN. -/
def nanPaletteJV : JVal :=
  JVal.obj
    [("theoretical",
      palJV (rgbJV JSNum.nan (JSNum.fin 0) (JSNum.fin 0))
        (rgbJV (JSNum.fin 255) (JSNum.fin 255) (JSNum.fin 255))
        (rgbJV (JSNum.fin 255) (JSNum.fin 255) (JSNum.fin 0))
        (rgbJV (JSNum.fin 255) (JSNum.fin 0) (JSNum.fin 0))
        (rgbJV (JSNum.fin 0) (JSNum.fin 0) (JSNum.fin 255))
        (rgbJV (JSNum.fin 0) (JSNum.fin 255) (JSNum.fin 0))),
     ("perceived",
      palJV (rgbJV (JSNum.fin 2) (JSNum.fin 2) (JSNum.fin 2))
        (rgbJV (JSNum.fin 190) (JSNum.fin 200) (JSNum.fin 200))
        (rgbJV (JSNum.fin 205) (JSNum.fin 202) (JSNum.fin 0))
        (rgbJV (JSNum.fin 135) (JSNum.fin 19) (JSNum.fin 0))
        (rgbJV (JSNum.fin 5) (JSNum.fin 64) (JSNum.fin 158))
        (rgbJV (JSNum.fin 39) (JSNum.fin 102) (JSNum.fin 60)))]

/-- All six entries of a palette are byte-valued (each channel at most 255);
this is the palettes.js validation invariant. -/
abbrev pixByteOk (p : Pix) : Prop := p.1 ≤ 255 ∧ p.2.1 ≤ 255 ∧ p.2.2 ≤ 255

abbrev palByteOk (p : SinglePal) : Prop :=
  pixByteOk p.black ∧ pixByteOk p.white ∧ pixByteOk p.yellow ∧ pixByteOk p.red ∧
    pixByteOk p.blue ∧ pixByteOk p.green

/-! ## Lemmas: the closest-color loop -/

theorem fclAcc_zero {A : Type} [LinearOrder A] (dist : ℕ → A) : fclAcc dist 0 = (none, 1) :=
  rfl

theorem fclAcc_succ {A : Type} [LinearOrder A] (dist : ℕ → A) (n : ℕ) :
    fclAcc dist (n + 1) = fcStep dist (fclAcc dist n) n := by
  unfold fclAcc
  rw [List.range_succ, List.foldl_append, List.foldl_cons, List.foldl_nil]

/-- After scanning at least one slot, the loop state holds the first slot
(in scan order, skipping the reserved slot 4) realizing the minimum distance. -/
theorem fclAcc_spec {A : Type} [LinearOrder A] (dist : ℕ → A) :
    ∀ n : ℕ, 1 ≤ n →
      ∃ r : ℕ, fclAcc dist n = (some (dist r), r) ∧ r < n ∧ r ≠ 4 ∧
        (∀ j, j < n → j ≠ 4 → dist r ≤ dist j) ∧
        (∀ j, j < r → j ≠ 4 → dist r < dist j) := by
  intro n
  induction n with
  | zero => intro hz; omega
  | succ n ih =>
    intro _
    by_cases hn : n = 0
    · subst hn
      refine ⟨0, ?_, by omega, by omega, ?_, ?_⟩
      · rw [fclAcc_succ, fclAcc_zero]
        unfold fcStep
        simp
      · intro j hj hj4
        interval_cases j
        exact le_refl _
      · intro j hj hj4
        omega
    · have h1 : 1 ≤ n := by omega
      obtain ⟨r, hacc, hrn, hr4, hmin, hfirst⟩ := ih h1
      rw [fclAcc_succ, hacc]
      by_cases h4 : n = 4
      · refine ⟨r, ?_, by omega, hr4, ?_, hfirst⟩
        · unfold fcStep
          rw [if_pos h4]
        · intro j hj hj4
          rcases Nat.lt_succ_iff_lt_or_eq.mp hj with hlt | heq
          · exact hmin j hlt hj4
          · exact absurd (heq.trans h4) hj4
      · unfold fcStep
        rw [if_neg h4]
        by_cases hlt : dist n < dist r
        · refine ⟨n, ?_, by omega, h4, ?_, ?_⟩
          · simp [hlt]
          · intro j hj hj4
            rcases Nat.lt_succ_iff_lt_or_eq.mp hj with hjlt | heq
            · exact le_of_lt (lt_of_lt_of_le hlt (hmin j hjlt hj4))
            · rw [heq]
          · intro j hj hj4
            exact lt_of_lt_of_le hlt (hmin j hj hj4)
        · refine ⟨r, ?_, by omega, hr4, ?_, hfirst⟩
          · simp [hlt]
          · intro j hj hj4
            rcases Nat.lt_succ_iff_lt_or_eq.mp hj with hjlt | heq
            · exact hmin j hjlt hj4
            · rw [heq]
              exact le_of_not_lt hlt

/-- The loop result never depends on the distance at the reserved slot 4. -/
theorem fclAcc_congr {A : Type} [LinearOrder A] (d d2 : ℕ → A)
    (h : ∀ i, i ≠ 4 → d i = d2 i) : ∀ n, fclAcc d n = fclAcc d2 n := by
  intro n
  induction n with
  | zero => rfl
  | succ n ih =>
    rw [fclAcc_succ, fclAcc_succ, ih]
    unfold fcStep
    by_cases h4 : n = 4
    · rw [if_pos h4, if_pos h4]
    · rw [if_neg h4, if_neg h4, h n h4]

theorem findClosestLoop_bounds {A : Type} [LinearOrder A] (dist : ℕ → A) :
    findClosestLoop dist 7 < 7 ∧ findClosestLoop dist 7 ≠ 4 := by
  obtain ⟨r, hacc, h7, h4, _, _⟩ := fclAcc_spec dist 7 (by omega)
  unfold findClosestLoop
  rw [hacc]
  exact ⟨h7, h4⟩

/-- Method dispatch: on a 7-slot palette array the matched index is one of the
active slots, never the reserved slot 4 and never out of range. -/
theorem findClosestColor_bounds (r g b : ℚ) (method : String) (pal : List Pix)
    (labs : List Lab3) (h7 : pal.length = 7) :
    findClosestColor r g b method pal labs < 7 ∧
      findClosestColor r g b method pal labs ≠ 4 := by
  unfold findClosestColor findClosestColorLAB findClosestColorRGB
  by_cases hm : method = "lab"
  · rw [if_pos hm, h7]
    exact findClosestLoop_bounds _
  · rw [if_neg hm, h7]
    exact findClosestLoop_bounds _

/-! ## Lemmas: generic fold invariants -/

theorem foldl_preserve {S B : Type} (step : S → B → S) (P : S → Prop)
    (hp : ∀ s b, P s → P (step s b)) :
    ∀ (l : List B) (s : S), P s → P (l.foldl step s) := by
  intro l
  induction l with
  | nil => intro s hs; exact hs
  | cons b t ih => intro s hs; exact ih _ (hp s b hs)

theorem foldl_establish {S B : Type} (step : S → B → S) (P : S → Prop) (b0 : B)
    (hp : ∀ s b, P s → P (step s b)) (he : ∀ s, P (step s b0)) :
    ∀ (l : List B) (s : S), b0 ∈ l → P (l.foldl step s) := by
  intro l
  induction l with
  | nil => intro s hmem; exact absurd hmem (List.not_mem_nil b0)
  | cons b t ih =>
    intro s hmem
    rcases List.mem_cons.mp hmem with heq | hmem2
    · rw [List.foldl_cons, ← heq]
      exact foldl_preserve step P hp t (step s b0) (he s)
    · exact ih _ hmem2

/-- Writing the output palette entry at an active slot yields one of the six
palette colors (byte-valued entries survive the clamped store unchanged). -/
theorem storePix_getD_mem (outP : SinglePal) (hbyte : palByteOk outP) (c : ℕ)
    (hlt : c < 7) (hne : c ≠ 4) :
    storePix ((paletteToArray outP).getD c (0, 0, 0)) = outP.black ∨
    storePix ((paletteToArray outP).getD c (0, 0, 0)) = outP.white ∨
    storePix ((paletteToArray outP).getD c (0, 0, 0)) = outP.yellow ∨
    storePix ((paletteToArray outP).getD c (0, 0, 0)) = outP.red ∨
    storePix ((paletteToArray outP).getD c (0, 0, 0)) = outP.blue ∨
    storePix ((paletteToArray outP).getD c (0, 0, 0)) = outP.green := by
  obtain ⟨hb, hw, hy, hr, hbl, hg⟩ := hbyte
  have hfix : ∀ p : Pix, pixByteOk p → storePix p = p := by
    intro p hp
    obtain ⟨h1, h2, h3⟩ := hp
    unfold storePix byteOfNat
    rw [min_eq_left h1, min_eq_left h2, min_eq_left h3]
  interval_cases c
  · exact Or.inl (by simpa [paletteToArray] using hfix _ hb)
  · exact Or.inr (Or.inl (by simpa [paletteToArray] using hfix _ hw))
  · exact Or.inr (Or.inr (Or.inl (by simpa [paletteToArray] using hfix _ hy)))
  · exact Or.inr (Or.inr (Or.inr (Or.inl (by simpa [paletteToArray] using hfix _ hr))))
  · exact absurd rfl hne
  · exact Or.inr (Or.inr (Or.inr (Or.inr (Or.inl
      (by simpa [paletteToArray] using hfix _ hbl)))))
  · exact Or.inr (Or.inr (Or.inr (Or.inr (Or.inr
      (by simpa [paletteToArray] using hfix _ hg)))))

/-- What a dithering step does to the pixel buffer: the current pixel receives
the output palette's entry at the matched slot; no other pixel changes. -/
theorem ditherStep_data (w h : ℕ) (method : String) (opal dpal : List Pix)
    (mat : List (ℤ × ℤ × ℚ)) (labs : List Lab3) (s : DitherState) (x y i : ℕ) :
    (ditherStep w h method opal dpal mat labs s x y).data i =
      if i = y * w + x then
        storePix (opal.getD
          (findClosestColor
            (clampWork (((s.data (y * w + x)).1 : ℚ) + (s.errors (y * w + x)).1))
            (clampWork (((s.data (y * w + x)).2.1 : ℚ) + (s.errors (y * w + x)).2.1))
            (clampWork (((s.data (y * w + x)).2.2 : ℚ) + (s.errors (y * w + x)).2.2))
            method dpal labs) (0, 0, 0))
      else s.data i := by
  unfold ditherStep
  exact Function.update_apply s.data (y * w + x) _ i


/-- Unfolding of `applyErrorDiffusionDither` as the raster-order fold of `ditherStep` over a
zero-initialized error buffer. -/
theorem applyEDD_unfold (w h : ℕ) (data0 : ℕ → Pix) (method : String)
    (opal dpal : List Pix) (algorithm : String) :
    applyErrorDiffusionDither w h data0 method opal dpal algorithm =
      ((List.range h).foldl
        (fun s y => (List.range w).foldl
          (fun s x => ditherStep w h method opal dpal (diffusionMatrix algorithm)
            (if method = "lab" then
              dpal.map (fun p => rgbToLab (p.1 : ℝ) (p.2.1 : ℝ) (p.2.2 : ℝ)) else [])
            s x y) s)
        { data := data0, errors := fun _ => (0, 0, 0) }).data := rfl

set_option maxHeartbeats 400000 in
/-- Claim C1: for every input image, every palette pair with byte-valued
entries, every color-matching method and every dither-algorithm name, after
`applyErrorDiffusionDither` completes every pixel of the image equals one of
the six active entries (slots 0, 1, 2, 3, 5, 6) of the output palette array —
never an intermediate or blended color. -/
theorem c1_dither_output_in_palette (w h : ℕ) (data0 : ℕ → Pix)
    (method algorithm : String) (outP ditherP : SinglePal)
    (hbyte : palByteOk outP) (i : ℕ) (hi : i < w * h) :
    applyErrorDiffusionDither w h data0 method (paletteToArray outP)
        (paletteToArray ditherP) algorithm i = outP.black ∨
    applyErrorDiffusionDither w h data0 method (paletteToArray outP)
        (paletteToArray ditherP) algorithm i = outP.white ∨
    applyErrorDiffusionDither w h data0 method (paletteToArray outP)
        (paletteToArray ditherP) algorithm i = outP.yellow ∨
    applyErrorDiffusionDither w h data0 method (paletteToArray outP)
        (paletteToArray ditherP) algorithm i = outP.red ∨
    applyErrorDiffusionDither w h data0 method (paletteToArray outP)
        (paletteToArray ditherP) algorithm i = outP.blue ∨
    applyErrorDiffusionDither w h data0 method (paletteToArray outP)
        (paletteToArray ditherP) algorithm i = outP.green := by
  have hw : 0 < w := by
    rcases Nat.eq_zero_or_pos w with h0 | h0
    · rw [h0] at hi
      simp at hi
    · exact h0
  let P : DitherState → Prop := fun s =>
    s.data i = outP.black ∨ s.data i = outP.white ∨ s.data i = outP.yellow ∨
      s.data i = outP.red ∨ s.data i = outP.blue ∨ s.data i = outP.green
  have h7 : (paletteToArray ditherP).length = 7 := rfl
  have hpres : ∀ (mat : List (ℤ × ℤ × ℚ)) (labs : List Lab3) (x y : ℕ) (s : DitherState),
      P s → P (ditherStep w h method (paletteToArray outP) (paletteToArray ditherP)
        mat labs s x y) := by
    intro mat labs x y s hs
    show (ditherStep _ _ _ _ _ _ _ _ _ _).data i = _ ∨ _
    rw [ditherStep_data]
    by_cases hidx : i = y * w + x
    · rw [if_pos hidx]
      obtain ⟨hlt, hne⟩ := findClosestColor_bounds _ _ _ method _ labs h7
      exact storePix_getD_mem outP hbyte _ hlt hne
    · rw [if_neg hidx]
      exact hs
  have hsplit : i / w * w + i % w = i := by
    rw [Nat.mul_comm]
    exact Nat.div_add_mod i w
  have hest : ∀ (mat : List (ℤ × ℤ × ℚ)) (labs : List Lab3) (s : DitherState),
      P (ditherStep w h method (paletteToArray outP) (paletteToArray ditherP)
        mat labs s (i % w) (i / w)) := by
    intro mat labs s
    show (ditherStep _ _ _ _ _ _ _ _ _ _).data i = _ ∨ _
    rw [ditherStep_data, if_pos hsplit.symm]
    obtain ⟨hlt, hne⟩ := findClosestColor_bounds _ _ _ method _ labs h7
    exact storePix_getD_mem outP hbyte _ hlt hne
  have main : ∀ (mat : List (ℤ × ℤ × ℚ)) (labs : List Lab3) (s0 : DitherState),
      P ((List.range h).foldl
        (fun s y => (List.range w).foldl
          (fun s x => ditherStep w h method (paletteToArray outP)
            (paletteToArray ditherP) mat labs s x y) s)
        s0) := by
    intro mat labs s0
    refine foldl_establish _ P (i / w) ?_ ?_ (List.range h) s0 ?_
    · intro s y
      exact foldl_preserve _ P (fun s x => hpres mat labs x y s) (List.range w) s
    · intro s
      refine foldl_establish _ P (i % w) ?_ ?_ (List.range w) s ?_
      · intro s2 x
        exact hpres mat labs x (i / w) s2
      · intro s2
        exact hest mat labs s2
      · exact List.mem_range.mpr (Nat.mod_lt i hw)
    · refine List.mem_range.mpr ((Nat.div_lt_iff_lt_mul hw).mpr ?_)
      rw [Nat.mul_comm]
      exact hi
  rw [applyEDD_unfold]
  exact main _ _ _

theorem c1_witness :
    palByteOk SPECTRA6.theoretical ∧ 0 < 2 * 2 ∧
      (applyErrorDiffusionDither 2 2 (fun _ => (100, 100, 100)) "rgb"
          (paletteToArray SPECTRA6.theoretical) (paletteToArray SPECTRA6.perceived)
          "floyd-steinberg" 0 = SPECTRA6.theoretical.black ∨
        applyErrorDiffusionDither 2 2 (fun _ => (100, 100, 100)) "rgb"
          (paletteToArray SPECTRA6.theoretical) (paletteToArray SPECTRA6.perceived)
          "floyd-steinberg" 0 = SPECTRA6.theoretical.white ∨
        applyErrorDiffusionDither 2 2 (fun _ => (100, 100, 100)) "rgb"
          (paletteToArray SPECTRA6.theoretical) (paletteToArray SPECTRA6.perceived)
          "floyd-steinberg" 0 = SPECTRA6.theoretical.yellow ∨
        applyErrorDiffusionDither 2 2 (fun _ => (100, 100, 100)) "rgb"
          (paletteToArray SPECTRA6.theoretical) (paletteToArray SPECTRA6.perceived)
          "floyd-steinberg" 0 = SPECTRA6.theoretical.red ∨
        applyErrorDiffusionDither 2 2 (fun _ => (100, 100, 100)) "rgb"
          (paletteToArray SPECTRA6.theoretical) (paletteToArray SPECTRA6.perceived)
          "floyd-steinberg" 0 = SPECTRA6.theoretical.blue ∨
        applyErrorDiffusionDither 2 2 (fun _ => (100, 100, 100)) "rgb"
          (paletteToArray SPECTRA6.theoretical) (paletteToArray SPECTRA6.perceived)
          "floyd-steinberg" 0 = SPECTRA6.theoretical.green) :=
  ⟨by decide, by decide,
    c1_dither_output_in_palette 2 2 (fun _ => (100, 100, 100)) "rgb" "floyd-steinberg"
      SPECTRA6.theoretical SPECTRA6.perceived (by decide) 0 (by decide)⟩

/-- Claim C6: the closest-color search (under both the rgb and the lab metric)
never depends on the reserved slot 4, returns the index of the minimum distance
with the first minimum in slot order winning ties, defaults to slot 1 (white)
when no comparison executes, and on a 7-slot palette always returns an index in
(0, 1, 2, 3, 5, 6), never 4. -/
theorem c6_closest_color_contract :
    (∀ (A : Type) (inst : LinearOrder A) (d d2 : ℕ → A) (n : ℕ),
        (∀ i, i ≠ 4 → d i = d2 i) →
        @findClosestLoop A inst d n = @findClosestLoop A inst d2 n) ∧
    (∀ r g b : ℚ, findClosestColorRGB r g b [] = 1) ∧
    (∀ (r g b : ℚ) (labs : List Lab3), findClosestColorLAB r g b [] labs = 1) ∧
    (∀ (r g b : ℚ) (pal : List Pix), pal.length = 7 →
      (findClosestColorRGB r g b pal = 0 ∨ findClosestColorRGB r g b pal = 1 ∨
        findClosestColorRGB r g b pal = 2 ∨ findClosestColorRGB r g b pal = 3 ∨
        findClosestColorRGB r g b pal = 5 ∨ findClosestColorRGB r g b pal = 6) ∧
      (∀ j, j < 7 → j ≠ 4 →
        rgbSlotDist r g b pal (findClosestColorRGB r g b pal) ≤ rgbSlotDist r g b pal j) ∧
      (∀ j, j < findClosestColorRGB r g b pal → j ≠ 4 →
        rgbSlotDist r g b pal (findClosestColorRGB r g b pal) < rgbSlotDist r g b pal j)) ∧
    (∀ (r g b : ℚ) (pal : List Pix) (labs : List Lab3), pal.length = 7 →
      (findClosestColorLAB r g b pal labs = 0 ∨ findClosestColorLAB r g b pal labs = 1 ∨
        findClosestColorLAB r g b pal labs = 2 ∨ findClosestColorLAB r g b pal labs = 3 ∨
        findClosestColorLAB r g b pal labs = 5 ∨ findClosestColorLAB r g b pal labs = 6) ∧
      (∀ j, j < 7 → j ≠ 4 →
        labSlotDist r g b labs (findClosestColorLAB r g b pal labs) ≤ labSlotDist r g b labs j) ∧
      (∀ j, j < findClosestColorLAB r g b pal labs → j ≠ 4 →
        labSlotDist r g b labs (findClosestColorLAB r g b pal labs) <
          labSlotDist r g b labs j)) := by
  refine ⟨?_, ?_, ?_, ?_, ?_⟩
  · intro A inst d d2 n hagree
    unfold findClosestLoop
    rw [fclAcc_congr d d2 hagree n]
  · intro r g b
    rfl
  · intro r g b labs
    rfl
  · intro r g b pal h7
    unfold findClosestColorRGB findClosestLoop
    rw [h7]
    obtain ⟨k, hacc, hlt, hne, hmin, hfirst⟩ := fclAcc_spec (rgbSlotDist r g b pal) 7 (by omega)
    rw [hacc]
    exact ⟨by omega, hmin, hfirst⟩
  · intro r g b pal labs h7
    unfold findClosestColorLAB findClosestLoop
    rw [h7]
    obtain ⟨k, hacc, hlt, hne, hmin, hfirst⟩ := fclAcc_spec (labSlotDist r g b labs) 7 (by omega)
    rw [hacc]
    exact ⟨by omega, hmin, hfirst⟩

theorem c6_witness :
    (paletteToArray SPECTRA6.perceived).length = 7 ∧
      (findClosestColorRGB 100 100 100 (paletteToArray SPECTRA6.perceived) = 0 ∨
        findClosestColorRGB 100 100 100 (paletteToArray SPECTRA6.perceived) = 1 ∨
        findClosestColorRGB 100 100 100 (paletteToArray SPECTRA6.perceived) = 2 ∨
        findClosestColorRGB 100 100 100 (paletteToArray SPECTRA6.perceived) = 3 ∨
        findClosestColorRGB 100 100 100 (paletteToArray SPECTRA6.perceived) = 5 ∨
        findClosestColorRGB 100 100 100 (paletteToArray SPECTRA6.perceived) = 6) :=
  ⟨rfl, (c6_closest_color_contract.2.2.2.1 100 100 100
    (paletteToArray SPECTRA6.perceived) rfl).1⟩

/-- Claim C2: when dithering runs, `processImage` always passes the perceived
palette as the dither palette (the matching palette) and writes the output
palette's entry at the matched index, where the output palette is the
theoretical palette by default and the perceived palette exactly when
`usePerceivedOutput`; inside a step, the matched index comes from the dither
palette, the written pixel is the output palette's entry at that index, and the
diffused quantization error is the working color minus the dither palette's
chosen entry (shown at the right neighbor with its Floyd-Steinberg weight). -/
theorem c2_dither_palette_flow :
    (∀ (data : ℕ → Pix) (params : ProcessingParams) (palette : PalettePair)
        (upo : Bool) (w h : ℕ),
      processImagePixelStage data params palette false upo w h =
        applyErrorDiffusionDither w h
          (preprocessImage data params (some palette.perceived))
          (if params.colorMethod = "" then "rgb" else params.colorMethod)
          (paletteToArray (if upo then palette.perceived else palette.theoretical))
          (paletteToArray palette.perceived)
          (if params.ditherAlgorithm = "" then "floyd-steinberg"
           else params.ditherAlgorithm)) ∧
    (∀ (w h : ℕ) (method : String) (opal dpal : List Pix) (mat : List (ℤ × ℤ × ℚ))
        (labs : List Lab3) (s : DitherState) (x y : ℕ),
      (ditherStep w h method opal dpal mat labs s x y).data (y * w + x) =
        storePix (opal.getD
          (findClosestColor
            (clampWork (((s.data (y * w + x)).1 : ℚ) + (s.errors (y * w + x)).1))
            (clampWork (((s.data (y * w + x)).2.1 : ℚ) + (s.errors (y * w + x)).2.1))
            (clampWork (((s.data (y * w + x)).2.2 : ℚ) + (s.errors (y * w + x)).2.2))
            method dpal labs) (0, 0, 0))) ∧
    (∀ (w h : ℕ) (method : String) (opal dpal : List Pix) (labs : List Lab3)
        (s : DitherState) (x y : ℕ), x + 1 < w → y + 1 = h →
      (ditherStep w h method opal dpal fsMatrix labs s x y).errors (y * w + (x + 1)) =
        ((s.errors (y * w + (x + 1))).1 +
            (clampWork (((s.data (y * w + x)).1 : ℚ) + (s.errors (y * w + x)).1) -
              ((dpal.getD (findClosestColor
                (clampWork (((s.data (y * w + x)).1 : ℚ) + (s.errors (y * w + x)).1))
                (clampWork (((s.data (y * w + x)).2.1 : ℚ) + (s.errors (y * w + x)).2.1))
                (clampWork (((s.data (y * w + x)).2.2 : ℚ) + (s.errors (y * w + x)).2.2))
                method dpal labs) (0, 0, 0)).1 : ℚ)) * (7 / 16),
         (s.errors (y * w + (x + 1))).2.1 +
            (clampWork (((s.data (y * w + x)).2.1 : ℚ) + (s.errors (y * w + x)).2.1) -
              ((dpal.getD (findClosestColor
                (clampWork (((s.data (y * w + x)).1 : ℚ) + (s.errors (y * w + x)).1))
                (clampWork (((s.data (y * w + x)).2.1 : ℚ) + (s.errors (y * w + x)).2.1))
                (clampWork (((s.data (y * w + x)).2.2 : ℚ) + (s.errors (y * w + x)).2.2))
                method dpal labs) (0, 0, 0)).2.1 : ℚ)) * (7 / 16),
         (s.errors (y * w + (x + 1))).2.2 +
            (clampWork (((s.data (y * w + x)).2.2 : ℚ) + (s.errors (y * w + x)).2.2) -
              ((dpal.getD (findClosestColor
                (clampWork (((s.data (y * w + x)).1 : ℚ) + (s.errors (y * w + x)).1))
                (clampWork (((s.data (y * w + x)).2.1 : ℚ) + (s.errors (y * w + x)).2.1))
                (clampWork (((s.data (y * w + x)).2.2 : ℚ) + (s.errors (y * w + x)).2.2))
                method dpal labs) (0, 0, 0)).2.2 : ℚ)) * (7 / 16))) := by
  refine ⟨?_, ?_, ?_⟩
  · intro data params palette upo w h
    simp [processImagePixelStage]
  · intro w h method opal dpal mat labs s x y
    rw [ditherStep_data, if_pos rfl]
  · intro w h method opal dpal labs s x y hx hrow
    unfold ditherStep
    simp only [fsMatrix, List.foldl_cons, List.foldl_nil]
    rw [if_neg (by omega), if_neg (by omega), if_neg (by omega), if_pos (by omega)]
    have h1 : ((y : ℤ) + 0) * (w : ℤ) + ((x : ℤ) + 1) = ((y * w + (x + 1) : ℕ) : ℤ) := by
      push_cast
      ring
    rw [h1, Int.toNat_natCast, Function.update_same]


theorem c2_witness :
    (ditherStep 2 1 "rgb" (paletteToArray SPECTRA6.theoretical)
        (paletteToArray SPECTRA6.perceived) fsMatrix []
        { data := fun _ => (100, 100, 100), errors := fun _ => (0, 0, 0) } 0 0).errors
      (0 * 2 + (0 + 1)) = (427 / 16, -7 / 8, 35 / 2) := by
  have h := c2_dither_palette_flow.2.2 2 1 "rgb" (paletteToArray SPECTRA6.theoretical)
    (paletteToArray SPECTRA6.perceived) []
    { data := fun _ => (100, 100, 100), errors := fun _ => (0, 0, 0) } 0 0
    (by decide) (by decide)
  rw [h]
  have hr : List.range 7 = [0, 1, 2, 3, 4, 5, 6] := by decide
  have hc : findClosestColor 100 100 100 "rgb" (paletteToArray SPECTRA6.perceived) [] = 6 := by
    show findClosestColorRGB 100 100 100 (paletteToArray SPECTRA6.perceived) = 6
    show findClosestLoop (rgbSlotDist 100 100 100 (paletteToArray SPECTRA6.perceived)) 7 = 6
    unfold findClosestLoop fclAcc
    rw [hr]
    norm_num [fcStep, rgbSlotDist, paletteToArray, SPECTRA6]
  norm_num [clampWork]
  rw [hc]
  norm_num [paletteToArray, SPECTRA6]

/-- Claim C8: the exposure step multiplies each of R, G, B by the multiplier,
rounds, and clamps to 255; it is skipped (the buffer is returned unchanged)
exactly when the multiplier is 1.0 — for any other nonnegative multiplier the
per-channel formula applies. -/
theorem c8_exposure_contract (data : ℕ → Pix) (e : ℚ) :
    (e = 1 → applyExposure data e = data) ∧
    (e ≠ 1 → 0 ≤ e → ∀ i,
      applyExposure data e i =
        ((min 255 (round (((data i).1 : ℚ) * e))).toNat,
         (min 255 (round (((data i).2.1 : ℚ) * e))).toNat,
         (min 255 (round (((data i).2.2 : ℚ) * e))).toNat)) := by
  constructor
  · intro h1
    unfold applyExposure
    rw [if_pos h1]
  · intro hne hnn i
    unfold applyExposure
    rw [if_neg hne]
    have hch : ∀ v : ℕ,
        byteOfInt (min 255 (round ((v : ℚ) * e))) = (min 255 (round ((v : ℚ) * e))).toNat := by
      intro v
      unfold byteOfInt
      have hx : (0 : ℚ) ≤ (v : ℚ) * e := mul_nonneg (Nat.cast_nonneg v) hnn
      have h0 : (0 : ℤ) ≤ round ((v : ℚ) * e) := by
        rw [round_eq]
        exact Int.floor_nonneg.2 (by linarith)
      rw [← min_assoc, min_self, max_eq_right (le_min (by norm_num) h0)]
    rw [hch, hch, hch]

theorem c8_witness :
    ((2 : ℚ) ≠ 1 ∧ (0 : ℚ) ≤ 2) ∧
      applyExposure (fun _ => (100, 100, 100)) 2 0 = (200, 200, 200) := by
  refine ⟨⟨by norm_num, by norm_num⟩, ?_⟩
  have h := (c8_exposure_contract (fun _ => (100, 100, 100)) 2).2 (by norm_num) (by norm_num) 0
  rw [h]
  norm_num
  decide

/-- All stages of `processImageCanvasDims` always end at the target size:
the output dimensions are the display dimensions, swapped exactly when a
portrait source is kept unrotated for a landscape display. -/
theorem ifResize_eq (c f : ℕ × ℕ) : (if c.1 ≠ f.1 ∨ c.2 ≠ f.2 then f else c) = f := by
  by_cases h : c.1 ≠ f.1 ∨ c.2 ≠ f.2
  · rw [if_pos h]
  · rw [if_neg h]
    push_neg at h
    exact Prod.ext h.1 h.2

/-- Claim C9 (amended): `processImage` does rotate and resize; the returned
canvas has the display dimensions — `(displayHeight, displayWidth)` exactly
when a portrait source is kept unrotated for a landscape display, and
`(displayWidth, displayHeight)` otherwise — not, in general, the source
dimensions. -/
theorem c9_dims_formula (srcW srcH dW dH : ℕ) (skipRotation : Bool) :
    processImageCanvasDims srcW srcH dW dH skipRotation =
      if srcH > srcW ∧ skipRotation = true ∧ dW > dH then (dH, dW) else (dW, dH) := by
  unfold processImageCanvasDims
  exact ifResize_eq _ _

/-- Claim C9 counterexample: a 1×2 portrait source processed for a 2×1 display
without `skipRotation` comes back 2×1, not at its source dimensions 1×2 — the
pipeline itself rotated and resized. -/
theorem c9_counterexample : processImageCanvasDims 1 2 2 1 false ≠ (1, 2) := by decide

/-- Claim C10: `validatePalette` accepts a palette pair whose
`theoretical.black.r` is NaN: `typeof NaN` is "number" and both range
comparisons are false on NaN, so validation passes and no error is thrown. -/
theorem c10_nan_accepted : validatePalette nanPaletteJV = Except.ok true := rfl

/-! ## Lemmas: linear-branch evaluation of the color conversions -/

theorem rgbToXyz_linear (r g b : ℝ) (hr : ¬ r / 255 > 0.04045) (hg : ¬ g / 255 > 0.04045)
    (hb : ¬ b / 255 > 0.04045) :
    rgbToXyz r g b =
      ((r / 255 / 12.92 * 0.4124564 + g / 255 / 12.92 * 0.3575761 +
          b / 255 / 12.92 * 0.1804375) * 100,
       (r / 255 / 12.92 * 0.2126729 + g / 255 / 12.92 * 0.7151522 +
          b / 255 / 12.92 * 0.072175) * 100,
       (r / 255 / 12.92 * 0.0193339 + g / 255 / 12.92 * 0.119192 +
          b / 255 / 12.92 * 0.9503041) * 100) := by
  simp only [rgbToXyz]
  rw [if_neg hr, if_neg hg, if_neg hb]

theorem xyzToLab_linear (x y z : ℝ) (hx : ¬ x / 95.047 > 0.008856)
    (hy : ¬ y / 100.0 > 0.008856) (hz : ¬ z / 108.883 > 0.008856) :
    xyzToLab x y z =
      (116 * (7.787 * (y / 100.0) + 16 / 116) - 16,
       500 * ((7.787 * (x / 95.047) + 16 / 116) - (7.787 * (y / 100.0) + 16 / 116)),
       200 * ((7.787 * (y / 100.0) + 16 / 116) - (7.787 * (z / 108.883) + 16 / 116))) := by
  simp only [xyzToLab]
  rw [if_neg hx, if_neg hy, if_neg hz]

theorem labToXyz_linear (L a b : ℝ) (hx : ¬ a / 500 + (L + 16) / 116 > 0.206897)
    (hy : ¬ (L + 16) / 116 > 0.206897) (hz : ¬ (L + 16) / 116 - b / 200 > 0.206897) :
    labToXyz L a b =
      ((a / 500 + (L + 16) / 116 - 16 / 116) / 7.787 * 95.047,
       ((L + 16) / 116 - 16 / 116) / 7.787 * 100.0,
       ((L + 16) / 116 - b / 200 - 16 / 116) / 7.787 * 108.883) := by
  simp only [labToXyz]
  rw [if_neg hx, if_neg hy, if_neg hz]

theorem xyzToRgb_linear (x y z : ℝ)
    (hr : ¬ x / 100 * 3.2404542 + y / 100 * (-1.5371385) + z / 100 * (-0.4985314) > 0.0031308)
    (hg : ¬ x / 100 * (-0.969266) + y / 100 * 1.8760108 + z / 100 * 0.041556 > 0.0031308)
    (hb : ¬ x / 100 * 0.0556434 + y / 100 * (-0.2040259) + z / 100 * 1.0572252 > 0.0031308) :
    xyzToRgb x y z =
      (max 0 (min 255 (round (12.92 *
         (x / 100 * 3.2404542 + y / 100 * (-1.5371385) + z / 100 * (-0.4985314)) * 255))),
       max 0 (min 255 (round (12.92 *
         (x / 100 * (-0.969266) + y / 100 * 1.8760108 + z / 100 * 0.041556) * 255))),
       max 0 (min 255 (round (12.92 *
         (x / 100 * 0.0556434 + y / 100 * (-0.2040259) + z / 100 * 1.0572252) * 255)))) := by
  simp only [xyzToRgb]
  rw [if_neg hr, if_neg hg, if_neg hb]

/-- Evaluating `rgbToLab` on black gives exactly (0, 0, 0) (every branch of the conversion is
linear there). -/
theorem rgbToLab_black : rgbToLab 0 0 0 = ((0 : ℝ), 0, 0) := by
  unfold rgbToLab
  rw [rgbToXyz_linear 0 0 0 (by norm_num) (by norm_num) (by norm_num)]
  norm_num
  rw [xyzToLab_linear 0 0 0 (by norm_num) (by norm_num) (by norm_num)]
  norm_num

/-- The L* of the perceived black ink (2, 2, 2): all conversion branches are
linear, so the value is an exact rational. -/
theorem rgbToLab_222_fst :
    (rgbToLab 2 2 2).1 =
      116 * (7.787 * ((2 / 255 / 12.92 * 0.2126729 + 2 / 255 / 12.92 * 0.7151522 +
        2 / 255 / 12.92 * 0.072175) * 100 / 100.0) + 16 / 116) - 16 := by
  unfold rgbToLab
  rw [rgbToXyz_linear 2 2 2 (by norm_num) (by norm_num) (by norm_num)]
  rw [xyzToLab_linear _ _ _ (by norm_num) (by norm_num) (by norm_num)]

/-- Converting (L* of perceived black, 0, 0) back to RGB yields (2, 2, 2). -/
theorem labToRgb_blackL : labToRgb ((rgbToLab 2 2 2).1) 0 0 = (2, 2, 2) := by
  rw [rgbToLab_222_fst]
  unfold labToRgb
  rw [labToXyz_linear _ _ _ (by norm_num) (by norm_num) (by norm_num)]
  rw [xyzToRgb_linear _ _ _ (by norm_num) (by norm_num) (by norm_num)]
  rw [round_eq, round_eq, round_eq]
  norm_num

/-- The dynamic-range-compression step maps a black pixel to the perceived
black ink value (2, 2, 2) — it does not leave the buffer unchanged. -/
theorem compressDR_black_pixel :
    compressDR (fun _ => ((0 : ℕ), 0, 0)) SPECTRA6.perceived 0 = (2, 2, 2) := by
  simp only [compressDR, SPECTRA6]
  norm_num [rgbToLab_black]
  rw [labToRgb_blackL]
  norm_num [byteOfInt]
  decide

/-- Claim C5 counterexample: with the parameters produced by
`getDefaultParams` (which set `compressDynamicRange := true`) and the perceived
reference palette that `processImage` always supplies, `preprocessImage` does
not leave an all-black buffer byte-identical: pixel 0 becomes (2, 2, 2). -/
theorem c5_counterexample :
    preprocessImage (fun _ => ((0 : ℕ), 0, 0)) getDefaultParams (some SPECTRA6.perceived) ≠
      (fun _ => ((0 : ℕ), 0, 0)) := by
  intro hEq
  have h0 := congrFun hEq 0
  have hpre : preprocessImage (fun _ => ((0 : ℕ), 0, 0)) getDefaultParams
      (some SPECTRA6.perceived) 0 = compressDR (fun _ => ((0 : ℕ), 0, 0)) SPECTRA6.perceived 0 := by
    simp [preprocessImage, getDefaultParams]
  rw [hpre, compressDR_black_pixel] at h0
  exact absurd h0 (by decide)

/-- Claim C5 (amended): the tone-adjustment stage with the default parameters
(exposure 1, saturation 1, contrast tone mode with contrast 1) is the identity
whenever the dynamic-range-compression step does not run, i.e. when no
perceived reference palette is supplied; with a perceived palette supplied (as
`processImage` always does), the default `compressDynamicRange = true` rewrites
pixels. -/
theorem c5_default_identity_no_palette (data : ℕ → Pix) :
    preprocessImage data getDefaultParams none = data := by
  simp [preprocessImage, getDefaultParams]

/-! ## Lemmas: byte-list indexing for the bitmap encoder -/

theorem getD_append_left2 {B : Type} (l l2 : List B) (d : B) :
    ∀ n, n < l.length → (l ++ l2).getD n d = l.getD n d := by
  induction l with
  | nil =>
    intro n hn
    exact absurd hn (by simp)
  | cons a t ih =>
    intro n hn
    cases n with
    | zero => rfl
    | succ n =>
      show (t ++ l2).getD n d = t.getD n d
      exact ih n (by simpa using hn)

theorem getD_append_add {B : Type} (l2 : List B) (d : B) :
    ∀ (l : List B) (n : ℕ), (l ++ l2).getD (l.length + n) d = l2.getD n d := by
  intro l
  induction l with
  | nil => intro n; simp
  | cons a t ih =>
    intro n
    have hidx : (a :: t).length + n = (t.length + n) + 1 := by
      simp only [List.length_cons]
      omega
    rw [hidx]
    show (t ++ l2).getD (t.length + n) d = l2.getD n d
    exact ih n

theorem replicate_getD_zero (d : ℕ) : ∀ (k n : ℕ), (List.replicate k (0 : ℕ)).getD n d = (if n < k then 0 else d) := by
  intro k
  induction k with
  | zero =>
    intro n
    simp [List.getD]
  | succ k ih =>
    intro n
    cases n with
    | zero => simp
    | succ n =>
      show (List.replicate k 0).getD n d = _
      rw [ih n]
      by_cases h : n < k
      · rw [if_pos h, if_pos (by omega)]
      · rw [if_neg h, if_neg (by omega)]

theorem listConcatMap_length {A B : Type} (f : A → List B) (c : ℕ) :
    ∀ l : List A, (∀ a ∈ l, (f a).length = c) → (listConcatMap f l).length = l.length * c := by
  intro l
  induction l with
  | nil =>
    intro _
    simp [listConcatMap]
  | cons a t ih =>
    intro hf
    show ((f a) ++ listConcatMap f t).length = _
    rw [List.length_append, hf a (List.mem_cons_self a t),
      ih (fun b hb => hf b (List.mem_cons_of_mem a hb))]
    simp only [List.length_cons]
    ring

theorem listConcatMap_getD {A B : Type} (f : A → List B) (c : ℕ) (d : B) (da : A) :
    ∀ (l : List A), (∀ a ∈ l, (f a).length = c) → ∀ k j, k < l.length → j < c →
      (listConcatMap f l).getD (k * c + j) d = (f (l.getD k da)).getD j d := by
  intro l
  induction l with
  | nil =>
    intro _ k j hk _
    exact absurd hk (Nat.not_lt_zero k)
  | cons a t ih =>
    intro hf k j hk hj
    cases k with
    | zero =>
      show ((f a) ++ listConcatMap f t).getD (0 * c + j) d = (f a).getD j d
      rw [Nat.zero_mul, Nat.zero_add]
      exact getD_append_left2 _ _ _ j
        (by rw [hf a (List.mem_cons_self a t)]; exact hj)
    | succ k =>
      have hfa : (f a).length = c := hf a (List.mem_cons_self a t)
      show ((f a) ++ listConcatMap f t).getD ((k + 1) * c + j) d = _
      have hidx : (k + 1) * c + j = (f a).length + (k * c + j) := by
        rw [hfa]
        ring
      rw [hidx, getD_append_add]
      exact ih (fun b hb => hf b (List.mem_cons_of_mem a hb)) k j
        (Nat.lt_of_succ_lt_succ hk) hj

theorem reverse_range_getD : ∀ (h k : ℕ), k < h → ((List.range h).reverse).getD k 0 = h - 1 - k := by
  intro h
  induction h with
  | zero =>
    intro k hk
    exact absurd hk (Nat.not_lt_zero k)
  | succ h ih =>
    intro k hk
    have hrev : (List.range (h + 1)).reverse = h :: (List.range h).reverse := by
      rw [List.range_succ, List.reverse_append]
      rfl
    rw [hrev]
    cases k with
    | zero => rfl
    | succ k =>
      show ((List.range h).reverse).getD k 0 = h + 1 - 1 - (k + 1)
      rw [ih k (by omega)]
      omega

theorem range_getD : ∀ (w x : ℕ), x < w → (List.range w).getD x 0 = x := by
  intro w
  induction w with
  | zero =>
    intro x hx
    exact absurd hx (Nat.not_lt_zero x)
  | succ w ih =>
    intro x hx
    rw [List.range_succ]
    by_cases h : x < w
    · rw [getD_append_left2 _ _ _ x (by simpa using h)]
      exact ih x h
    · have hx2 : x = w := by omega
      subst hx2
      have h2 := getD_append_add [x] 0 (List.range x) 0
      simp only [List.length_range, Nat.add_zero] at h2
      rw [h2]
      rfl

theorem bmpHeader_length (w h : ℕ) : (bmpHeader w h).length = 54 := by
  simp [bmpHeader, u32le, u16le]

theorem u32_readback (v : ℕ) (hv : v < 4294967296) :
    v % 256 + 256 * (v / 256 % 256) + 65536 * (v / 65536 % 256) +
      16777216 * (v / 16777216 % 256) = v := by omega

theorem bmpRow_length (w : ℕ) (data : ℕ → Pix) (y : ℕ) :
    (bmpRow w data y).length = bmpRowSize w := by
  unfold bmpRow
  rw [List.length_append, List.length_replicate,
    listConcatMap_length
      (fun x => [(data (y * w + x)).2.2, (data (y * w + x)).2.1, (data (y * w + x)).1])
      3 (List.range w) (fun a _ => rfl), List.length_range]
  have h3 : w * 3 ≤ bmpRowSize w := by
    unfold bmpRowSize
    omega
  omega

/-- Any byte of the pixel-data section of `createBMP`, as a byte of the stored
row at the given block index (rows are stored bottom-up). -/
theorem createBMP_body_getD (w h : ℕ) (data : ℕ → Pix) (m j : ℕ) (hm : m < h)
    (hj : j < bmpRowSize w) :
    (createBMP w h data).getD (54 + (m * bmpRowSize w + j)) 0 =
      (bmpRow w data (h - 1 - m)).getD j 0 := by
  unfold createBMP
  have h54 : (54 : ℕ) + (m * bmpRowSize w + j) =
      (bmpHeader w h).length + (m * bmpRowSize w + j) := by rw [bmpHeader_length]
  rw [h54, getD_append_add]
  rw [listConcatMap_getD _ (bmpRowSize w) 0 0 _
    (fun a _ => bmpRow_length w data a) m j
    (by rw [List.length_reverse, List.length_range]; exact hm) hj]
  rw [reverse_range_getD h m hm]

theorem bmpHeader_flat (w h : ℕ) :
    bmpHeader w h =
      [66, 77,
       (54 + bmpRowSize w * h) % 256, (54 + bmpRowSize w * h) / 256 % 256,
       (54 + bmpRowSize w * h) / 65536 % 256, (54 + bmpRowSize w * h) / 16777216 % 256,
       0, 0, 0, 0,
       54, 0, 0, 0,
       40, 0, 0, 0,
       w % 256, w / 256 % 256, w / 65536 % 256, w / 16777216 % 256,
       h % 256, h / 256 % 256, h / 65536 % 256, h / 16777216 % 256,
       1, 0,
       24, 0,
       0, 0, 0, 0,
       bmpRowSize w * h % 256, bmpRowSize w * h / 256 % 256,
       bmpRowSize w * h / 65536 % 256, bmpRowSize w * h / 16777216 % 256,
       19, 11, 0, 0,
       19, 11, 0, 0,
       0, 0, 0, 0,
       0, 0, 0, 0] := by
  simp [bmpHeader, u32le, u16le]

/-- Claim C3: `createBMP` on a W×H image produces exactly
54 + ceil(W*3/4)*4*H bytes: ASCII "BM", total file size as LE u32 at offset 2,
pixel-data offset 54, header size 40, width and (positive) height as LE 32-bit
values, 1 color plane, 24 bits per pixel, no compression, padded pixel-data
size at offset 34; pixel rows are stored bottom row first, each pixel as
3 bytes in B, G, R order, each row zero-padded to a multiple of 4 bytes. -/
theorem c3_createBMP_format (w h : ℕ) (data : ℕ → Pix)
    (hw : 1 ≤ w) (hh : 1 ≤ h) (hw31 : w < 2147483648) (hh31 : h < 2147483648)
    (hfs : 54 + bmpRowSize w * h < 4294967296) :
    (createBMP w h data).length = 54 + (w * 3 + 3) / 4 * 4 * h ∧
    (createBMP w h data).getD 0 0 = 66 ∧
    (createBMP w h data).getD 1 0 = 77 ∧
    readU32 (createBMP w h data) 2 = 54 + bmpRowSize w * h ∧
    readU32 (createBMP w h data) 10 = 54 ∧
    readU32 (createBMP w h data) 14 = 40 ∧
    readU32 (createBMP w h data) 18 = w ∧
    (readU32 (createBMP w h data) 22 = h ∧ 0 < h) ∧
    readU16 (createBMP w h data) 26 = 1 ∧
    readU16 (createBMP w h data) 28 = 24 ∧
    readU32 (createBMP w h data) 30 = 0 ∧
    readU32 (createBMP w h data) 34 = bmpRowSize w * h ∧
    (∀ x y, x < w → y < h →
      (createBMP w h data).getD (54 + (h - 1 - y) * bmpRowSize w + (x * 3 + 0)) 0 =
          (data (y * w + x)).2.2 ∧
      (createBMP w h data).getD (54 + (h - 1 - y) * bmpRowSize w + (x * 3 + 1)) 0 =
          (data (y * w + x)).2.1 ∧
      (createBMP w h data).getD (54 + (h - 1 - y) * bmpRowSize w + (x * 3 + 2)) 0 =
          (data (y * w + x)).1) ∧
    (∀ k j, k < h → w * 3 ≤ j → j < bmpRowSize w →
      (createBMP w h data).getD (54 + k * bmpRowSize w + j) 0 = 0) := by
  have hhd : ∀ n, n < 54 → (createBMP w h data).getD n 0 = (bmpHeader w h).getD n 0 := by
    intro n hn
    unfold createBMP
    exact getD_append_left2 _ _ _ n (by rw [bmpHeader_length]; exact hn)
  have hr32 : ∀ n, n + 3 < 54 →
      readU32 (createBMP w h data) n = readU32 (bmpHeader w h) n := by
    intro n hn
    unfold readU32
    rw [hhd n (by omega), hhd (n + 1) (by omega), hhd (n + 2) (by omega),
      hhd (n + 3) (by omega)]
  have hr16 : ∀ n, n + 1 < 54 →
      readU16 (createBMP w h data) n = readU16 (bmpHeader w h) n := by
    intro n hn
    unfold readU16
    rw [hhd n (by omega), hhd (n + 1) (by omega)]
  have hrow3 : w * 3 ≤ bmpRowSize w := by
    unfold bmpRowSize
    omega
  refine ⟨?_, ?_, ?_, ?_, ?_, ?_, ?_, ⟨?_, hh⟩, ?_, ?_, ?_, ?_, ?_, ?_⟩
  · unfold createBMP
    rw [List.length_append, bmpHeader_length,
      listConcatMap_length (bmpRow w data) (bmpRowSize w) ((List.range h).reverse)
        (fun a _ => bmpRow_length w data a),
      List.length_reverse, List.length_range]
    unfold bmpRowSize
    rw [Nat.mul_comm]
  · rw [hhd 0 (by omega), bmpHeader_flat]
    rfl
  · rw [hhd 1 (by omega), bmpHeader_flat]
    rfl
  · rw [hr32 2 (by omega)]
    unfold readU32
    rw [bmpHeader_flat]
    simp only [List.getD_cons_zero, List.getD_cons_succ]
    omega
  · rw [hr32 10 (by omega)]
    unfold readU32
    rw [bmpHeader_flat]
    simp
  · rw [hr32 14 (by omega)]
    unfold readU32
    rw [bmpHeader_flat]
    simp
  · rw [hr32 18 (by omega)]
    unfold readU32
    rw [bmpHeader_flat]
    simp only [List.getD_cons_zero, List.getD_cons_succ]
    omega
  · rw [hr32 22 (by omega)]
    unfold readU32
    rw [bmpHeader_flat]
    simp only [List.getD_cons_zero, List.getD_cons_succ]
    omega
  · rw [hr16 26 (by omega)]
    unfold readU16
    rw [bmpHeader_flat]
    simp
  · rw [hr16 28 (by omega)]
    unfold readU16
    rw [bmpHeader_flat]
    simp
  · rw [hr32 30 (by omega)]
    unfold readU32
    rw [bmpHeader_flat]
    simp
  · rw [hr32 34 (by omega)]
    unfold readU32
    rw [bmpHeader_flat]
    simp only [List.getD_cons_zero, List.getD_cons_succ]
    omega
  · intro x y hx hy
    have hm : h - 1 - y < h := by omega
    have hy2 : h - 1 - (h - 1 - y) = y := by omega
    have hcl : (listConcatMap
        (fun x => [(data (y * w + x)).2.2, (data (y * w + x)).2.1, (data (y * w + x)).1])
        (List.range w)).length = w * 3 := by
      rw [listConcatMap_length
        (fun x => [(data (y * w + x)).2.2, (data (y * w + x)).2.1, (data (y * w + x)).1])
        3 (List.range w) (fun a _ => rfl), List.length_range]
    refine ⟨?_, ?_, ?_⟩
    · rw [Nat.add_assoc, createBMP_body_getD w h data (h - 1 - y) (x * 3 + 0) hm (by omega),
        hy2]
      unfold bmpRow
      rw [getD_append_left2 _ _ _ (x * 3 + 0) (by rw [hcl]; omega)]
      rw [listConcatMap_getD
        (fun x => [(data (y * w + x)).2.2, (data (y * w + x)).2.1, (data (y * w + x)).1])
        3 0 0 (List.range w) (fun a _ => rfl) x 0 (by simpa using hx) (by omega)]
      rw [range_getD w x hx]
      rfl
    · rw [Nat.add_assoc, createBMP_body_getD w h data (h - 1 - y) (x * 3 + 1) hm (by omega),
        hy2]
      unfold bmpRow
      rw [getD_append_left2 _ _ _ (x * 3 + 1) (by rw [hcl]; omega)]
      rw [listConcatMap_getD
        (fun x => [(data (y * w + x)).2.2, (data (y * w + x)).2.1, (data (y * w + x)).1])
        3 0 0 (List.range w) (fun a _ => rfl) x 1 (by simpa using hx) (by omega)]
      rw [range_getD w x hx]
      rfl
    · rw [Nat.add_assoc, createBMP_body_getD w h data (h - 1 - y) (x * 3 + 2) hm (by omega),
        hy2]
      unfold bmpRow
      rw [getD_append_left2 _ _ _ (x * 3 + 2) (by rw [hcl]; omega)]
      rw [listConcatMap_getD
        (fun x => [(data (y * w + x)).2.2, (data (y * w + x)).2.1, (data (y * w + x)).1])
        3 0 0 (List.range w) (fun a _ => rfl) x 2 (by simpa using hx) (by omega)]
      rw [range_getD w x hx]
      rfl
  · intro k j hk hjl hju
    rw [Nat.add_assoc, createBMP_body_getD w h data k j hk (by omega)]
    unfold bmpRow
    have hcl : (listConcatMap
        (fun x => [(data ((h - 1 - k) * w + x)).2.2, (data ((h - 1 - k) * w + x)).2.1,
          (data ((h - 1 - k) * w + x)).1])
        (List.range w)).length = w * 3 := by
      rw [listConcatMap_length
        (fun x => [(data ((h - 1 - k) * w + x)).2.2, (data ((h - 1 - k) * w + x)).2.1,
          (data ((h - 1 - k) * w + x)).1])
        3 (List.range w) (fun a _ => rfl), List.length_range]
    rw [show j = (listConcatMap
        (fun x => [(data ((h - 1 - k) * w + x)).2.2, (data ((h - 1 - k) * w + x)).2.1,
          (data ((h - 1 - k) * w + x)).1])
        (List.range w)).length + (j - w * 3) from by rw [hcl]; omega]
    rw [getD_append_add, replicate_getD_zero]
    rw [if_pos (by omega)]

theorem c3_witness :
    (createBMP 2 1 (fun _ => ((255 : ℕ), 128, 64))).length = 62 ∧
      (createBMP 2 1 (fun _ => ((255 : ℕ), 128, 64))).getD 54 0 = 64 ∧
      readU32 (createBMP 2 1 (fun _ => ((255 : ℕ), 128, 64))) 18 = 2 := by
  have h := c3_createBMP_format 2 1 (fun _ => ((255 : ℕ), 128, 64))
    (by decide) (by decide) (by decide) (by decide) (by decide)
  refine ⟨?_, ?_, ?_⟩
  · have h1 := h.1
    norm_num at h1
    exact h1
  · have hp := (h.2.2.2.2.2.2.2.2.2.2.2.2.1 0 0 (by decide) (by decide)).1
    norm_num [bmpRowSize] at hp
    exact hp
  · exact h.2.2.2.2.2.2.1

/-! ## Lemmas: palette validation -/

theorem chan_ok_iff (v : JVal) (hn : isNanNum v = false) :
    (typeofIsNumber v = true ∧ numLtB v 0 = false ∧ numGtB v 255 = false) ↔
      channelOKb v = true := by
  cases v with
  | num n =>
    cases n with
    | nan => simp [isNanNum] at hn
    | fin q => simp [typeofIsNumber, numLtB, numGtB, channelOKb, not_lt]
  | undef => simp [typeofIsNumber, channelOKb]
  | null => simp [typeofIsNumber, channelOKb]
  | bool b => simp [typeofIsNumber, channelOKb]
  | str s => simp [typeofIsNumber, channelOKb]
  | obj fs => simp [typeofIsNumber, channelOKb]

theorem channelOKb_getField_truthy (v : JVal) (k : String)
    (h : channelOKb (getField v k) = true) : truthy v = true := by
  cases v with
  | obj fs => rfl
  | undef => simp [getField, channelOKb] at h
  | null => simp [getField, channelOKb] at h
  | bool b => simp [getField, channelOKb] at h
  | num n => simp [getField, channelOKb] at h
  | str s => simp [getField, channelOKb] at h

theorem channelOKb_typeofIsNumber (v : JVal) (h : channelOKb v = true) :
    typeofIsNumber v = true := by
  cases v with
  | num n =>
    cases n with
    | nan => simp [channelOKb] at h
    | fin q => rfl
  | undef => simp [channelOKb] at h
  | null => simp [channelOKb] at h
  | bool b => simp [channelOKb] at h
  | str s => simp [channelOKb] at h
  | obj fs => simp [channelOKb] at h

theorem channelOKb_range (v : JVal) (h : channelOKb v = true) :
    numLtB v 0 = false ∧ numGtB v 255 = false := by
  cases v with
  | num n =>
    cases n with
    | nan => simp [channelOKb] at h
    | fin q =>
      simp [channelOKb] at h
      simp [numLtB, numGtB, not_lt]
      exact ⟨h.1, h.2⟩
  | undef => simp [channelOKb] at h
  | null => simp [channelOKb] at h
  | bool b => simp [channelOKb] at h
  | str s => simp [channelOKb] at h
  | obj fs => simp [channelOKb] at h

theorem checkColor_ok_iff (pal : JVal) (name color : String)
    (hnr : isNanNum (getField (getField pal color) "r") = false)
    (hng : isNanNum (getField (getField pal color) "g") = false)
    (hnb : isNanNum (getField (getField pal color) "b") = false) :
    checkColor pal name color = Except.ok () ↔ roleOKb pal color = true := by
  constructor
  · intro hok
    unfold checkColor at hok
    by_cases h1 : truthy (getField pal color) = false
    · rw [if_pos h1] at hok
      exact absurd hok (by simp)
    · rw [if_neg h1] at hok
      by_cases h2 : (!typeofIsNumber (getField (getField pal color) "r") ||
          !typeofIsNumber (getField (getField pal color) "g") ||
          !typeofIsNumber (getField (getField pal color) "b")) = true
      · rw [if_pos h2] at hok
        exact absurd hok (by simp)
      · rw [if_neg h2] at hok
        by_cases h3 : (numLtB (getField (getField pal color) "r") 0 ||
            numGtB (getField (getField pal color) "r") 255 ||
            numLtB (getField (getField pal color) "g") 0 ||
            numGtB (getField (getField pal color) "g") 255 ||
            numLtB (getField (getField pal color) "b") 0 ||
            numGtB (getField (getField pal color) "b") 255) = true
        · rw [if_pos h3] at hok
          exact absurd hok (by simp)
        · simp only [Bool.not_eq_true, Bool.or_eq_false_iff, Bool.not_eq_false'] at h2 h3
          have hr := (chan_ok_iff _ hnr).mp ⟨h2.1.1, h3.1.1.1.1.1, h3.1.1.1.1.2⟩
          have hg := (chan_ok_iff _ hng).mp ⟨h2.1.2, h3.1.1.1.2, h3.1.1.2⟩
          have hb := (chan_ok_iff _ hnb).mp ⟨h2.2, h3.1.2, h3.2⟩
          simp [roleOKb, hr, hg, hb]
  · intro hrole
    simp only [roleOKb, Bool.and_eq_true] at hrole
    obtain ⟨⟨hr, hg⟩, hb⟩ := hrole
    have htr : truthy (getField pal color) = true := channelOKb_getField_truthy _ "r" hr
    have htyr := channelOKb_typeofIsNumber _ hr
    have htyg := channelOKb_typeofIsNumber _ hg
    have htyb := channelOKb_typeofIsNumber _ hb
    have hrr := channelOKb_range _ hr
    have hrg := channelOKb_range _ hg
    have hrb := channelOKb_range _ hb
    unfold checkColor
    rw [if_neg (by simp [htr]), if_neg (by simp [htyr, htyg, htyb]),
      if_neg (by simp [hrr.1, hrr.2, hrg.1, hrg.2, hrb.1, hrb.2])]

theorem checkColors_ok_iff (pal : JVal) (name : String) :
    ∀ l : List String, checkColors pal name l = Except.ok () ↔
      ∀ c ∈ l, checkColor pal name c = Except.ok () := by
  intro l
  induction l with
  | nil => simp [checkColors]
  | cons c t ih =>
    unfold checkColors
    constructor
    · intro hok
      rcases hcc : checkColor pal name c with e | u
      · rw [hcc] at hok
        simp at hok
      · rw [hcc] at hok
        simp only [] at hok
        intro c2 hc2
        rcases List.mem_cons.mp hc2 with heq | hmem
        · subst heq
          cases u
          exact hcc
        · exact ih.mp hok c2 hmem
    · intro hall
      have hc := hall c (List.mem_cons_self c t)
      rw [hc]
      exact ih.mpr (fun c2 hc2 => hall c2 (List.mem_cons_of_mem c hc2))

theorem roleOKb_palette_obj (pal : JVal) (ro : String) (h : roleOKb pal ro = true) :
    truthy pal = true ∧ typeofIsObject pal = true := by
  cases pal with
  | obj fs => exact ⟨rfl, rfl⟩
  | undef => simp [roleOKb, getField, channelOKb] at h
  | null => simp [roleOKb, getField, channelOKb] at h
  | bool b => simp [roleOKb, getField, channelOKb] at h
  | num n => simp [roleOKb, getField, channelOKb] at h
  | str s => simp [roleOKb, getField, channelOKb] at h

theorem getField_truthy_obj (v : JVal) (k : String) (h : truthy (getField v k) = true) :
    truthy v = true ∧ typeofIsObject v = true := by
  cases v with
  | obj fs => exact ⟨rfl, rfl⟩
  | undef => simp [getField, truthy] at h
  | null => simp [getField, truthy] at h
  | bool b => simp [getField, truthy] at h
  | num n => simp [getField, truthy] at h
  | str s => simp [getField, truthy] at h

theorem vsp_ok_iff (pal : JVal) (name : String)
    (hn : ∀ ro ∈ requiredColors, ∀ ch ∈ (["r", "g", "b"] : List String),
      isNanNum (getField (getField pal ro) ch) = false) :
    validateSinglePalette pal name = Except.ok () ↔ palOKb pal = true := by
  have hroles : ∀ ro ∈ requiredColors,
      (checkColor pal name ro = Except.ok () ↔ roleOKb pal ro = true) := by
    intro ro hro
    exact checkColor_ok_iff pal name ro
      (hn ro hro "r" (by simp)) (hn ro hro "g" (by simp)) (hn ro hro "b" (by simp))
  constructor
  · intro hok
    unfold validateSinglePalette at hok
    by_cases hg : (!truthy pal || !typeofIsObject pal) = true
    · rw [if_pos hg] at hok
      exact absurd hok (by simp)
    · rw [if_neg hg] at hok
      have hall := (checkColors_ok_iff pal name requiredColors).mp hok
      simp only [palOKb, List.all_eq_true]
      intro ro hro
      exact (hroles ro hro).mp (hall ro hro)
  · intro hpal
    simp only [palOKb, List.all_eq_true] at hpal
    have hobj := roleOKb_palette_obj pal "black" (hpal "black" (by simp [requiredColors]))
    unfold validateSinglePalette
    rw [if_neg (by simp [hobj.1, hobj.2])]
    exact (checkColors_ok_iff pal name requiredColors).mpr
      (fun ro hro => (hroles ro hro).mpr (hpal ro hro))

theorem vp_ok_shape (pp : JVal) (b : Bool) (h : validatePalette pp = Except.ok b) :
    b = true := by
  unfold validatePalette at h
  by_cases h1 : (!truthy pp || !typeofIsObject pp) = true
  · rw [if_pos h1] at h
    exact absurd h (by simp)
  · rw [if_neg h1] at h
    by_cases h2 : truthy (getField pp "theoretical") = false
    · rw [if_pos h2] at h
      exact absurd h (by simp)
    · rw [if_neg h2] at h
      by_cases h3 : truthy (getField pp "perceived") = false
      · rw [if_pos h3] at h
        exact absurd h (by simp)
      · rw [if_neg h3] at h
        rcases hv1 : validateSinglePalette (getField pp "theoretical") "theoretical" with e | u
        · rw [hv1] at h
          simp at h
        · rw [hv1] at h
          rcases hv2 : validateSinglePalette (getField pp "perceived") "perceived" with e | u2
          · rw [hv2] at h
            simp at h
          · rw [hv2] at h
            simp at h
            exact h

theorem nanFree_extract (pp : JVal) (hnan : nanFreeChannelsB pp = true) (pk : String)
    (hpk : pk ∈ (["theoretical", "perceived"] : List String)) :
    ∀ ro ∈ requiredColors, ∀ ch ∈ (["r", "g", "b"] : List String),
      isNanNum (getField (getField (getField pp pk) ro) ch) = false := by
  simp only [nanFreeChannelsB, List.all_eq_true, Bool.not_eq_true'] at hnan
  intro ro hro ch hch
  exact hnan pk hpk ro hro ch hch

/-- Claim C7: `validatePalette` (and hence `parsePalette` on parseable JSON,
whose values are NaN-free) throws an error if and only if the palette pair is
not claim-valid: some palette property, color role, or numeric channel in
[0, 255] is missing or out of range; a fully valid pair is accepted, returning
`ok true`. -/
theorem c7_validate_iff (pp : JVal) (hnan : nanFreeChannelsB pp = true) :
    ((∃ e, validatePalette pp = Except.error e) ↔ ¬ claimValidPairB pp = true) ∧
    (claimValidPairB pp = true → validatePalette pp = Except.ok true) := by
  have hth := nanFree_extract pp hnan "theoretical" (by simp)
  have hpc := nanFree_extract pp hnan "perceived" (by simp)
  have hok_iff : validatePalette pp = Except.ok true ↔ claimValidPairB pp = true := by
    constructor
    · intro h
      unfold validatePalette at h
      by_cases h1 : (!truthy pp || !typeofIsObject pp) = true
      · rw [if_pos h1] at h
        exact absurd h (by simp)
      · rw [if_neg h1] at h
        by_cases h2 : truthy (getField pp "theoretical") = false
        · rw [if_pos h2] at h
          exact absurd h (by simp)
        · rw [if_neg h2] at h
          by_cases h3 : truthy (getField pp "perceived") = false
          · rw [if_pos h3] at h
            exact absurd h (by simp)
          · rw [if_neg h3] at h
            rcases hv1 : validateSinglePalette (getField pp "theoretical") "theoretical" with e | u
            · rw [hv1] at h
              simp at h
            · rw [hv1] at h
              rcases hv2 : validateSinglePalette (getField pp "perceived") "perceived" with e | u2
              · rw [hv2] at h
                simp at h
              · cases u
                cases u2
                have hp1 := (vsp_ok_iff _ "theoretical" hth).mp hv1
                have hp2 := (vsp_ok_iff _ "perceived" hpc).mp hv2
                simp [claimValidPairB, hp1, hp2]
    · intro hvalid
      simp only [claimValidPairB, Bool.and_eq_true] at hvalid
      obtain ⟨hp1, hp2⟩ := hvalid
      have hthobj := roleOKb_palette_obj _ "black" (by
        simp only [palOKb, List.all_eq_true] at hp1
        exact hp1 "black" (by simp [requiredColors]))
      have hpcobj := roleOKb_palette_obj _ "black" (by
        simp only [palOKb, List.all_eq_true] at hp2
        exact hp2 "black" (by simp [requiredColors]))
      have hppobj := getField_truthy_obj pp "theoretical" hthobj.1
      unfold validatePalette
      rw [if_neg (by simp [hppobj.1, hppobj.2]), if_neg (by simp [hthobj.1]),
        if_neg (by simp [hpcobj.1])]
      rw [(vsp_ok_iff _ "theoretical" hth).mpr hp1, (vsp_ok_iff _ "perceived" hpc).mpr hp2]
  constructor
  · constructor
    · rintro ⟨e, he⟩ hvalid
      rw [hok_iff.mpr hvalid] at he
      simp at he
    · intro hnv
      rcases hv : validatePalette pp with e | b
      · exact ⟨e, rfl⟩
      · have hb := vp_ok_shape pp b hv
        subst hb
        exact absurd (hok_iff.mp hv) hnv
  · exact fun hv => hok_iff.mpr hv

theorem c7_witness :
    nanFreeChannelsB spectraJV = true ∧ claimValidPairB spectraJV = true ∧
      validatePalette spectraJV = Except.ok true :=
  ⟨by decide, by decide, (c7_validate_iff spectraJV (by decide)).2 (by decide)⟩
